import Mathlib

/-!
# rkt: verification of the composition root

A shallow embedding of the Go package `rkt` (files `rkt.go`, `routes.go`,
`middleware.go`, `types.go`, `driver.go`, `migrations.go`) and of its
sub-packages `render` and `sessions`.

Conventions of the embedding:

* a Go pointer that may be nil is an `Option`; `none` is the nil pointer;
* a Go `error` result is an `Option GoError`; `none` is the nil error;
* a Go string is a `String`;
* the receiver `*RKT` and the package-level variables are threaded as an
  explicit state `St`; calls that reach outside the process (file system,
  database drivers, template engines) are answered by the oracles of a
  `World` and are recorded, in program order, in the trace of the state;
* writes to the two loggers are not recorded, except `Fatal`, which ends
  the process.
-/

namespace Rkt

/-! ## Go standard library -/

/-- Go error values. Comparison with `==` in Go is identity of the error value,
which is equality of constructors and arguments here. -/
inductive GoError where
  /-- an error value produced by a library, identified by its text -/
  | lib (msg : String)
  /-- the sentinel `migrate.ErrNoChange` -/
  | ErrNoChange
  /-- the value of `fmt.Errorf(msg ++ ": %w", inner)` -/
  | wrap (msg : String) (inner : GoError)
  /-- the value of `fmt.Errorf` without a wrapped error -/
  | errorf (msg : String)
  deriving DecidableEq, Repr

/-- The rune-wise map of `strings.ToLower`: an ASCII rune is lowered by adding
`'a' - 'A'` when it is an upper-case letter; any other rune is sent through
`unicode.ToLower`, whose table on non-ASCII runes is the parameter `ul`. -/
def lowerRune (ul : Char → Char) (c : Char) : Char :=
  if c.toNat < 128 then
    if 65 ≤ c.toNat ∧ c.toNat ≤ 90 then Char.ofNat (c.toNat + 32) else c
  else ul c

/-- Model of `strings.ToLower`. -/
def ToLower (ul : Char → Char) (s : String) : String :=
  String.mk (s.data.map (lowerRune ul))

/-- Model of `strconv.ParseBool`: the value and the error. -/
def ParseBool (s : String) : Bool × Option GoError :=
  if s = "1" ∨ s = "t" ∨ s = "T" ∨ s = "TRUE" ∨ s = "true" ∨ s = "True" then (true, none)
  else if s = "0" ∨ s = "f" ∨ s = "F" ∨ s = "FALSE" ∨ s = "false" ∨ s = "False" then
    (false, none)
  else (false, some (GoError.lib ("strconv.ParseBool: parsing " ++ s ++ ": invalid syntax")))

/-- Value of a string of decimal digits, `none` when a character is not a digit
(the loop `n = n*10 + int(ch - 48)` of `strconv.Atoi` / `ParseUint`). -/
def parseDigits : List Char → Nat → Option Nat
  | [], acc => some acc
  | c :: cs, acc =>
    if 48 ≤ c.toNat ∧ c.toNat ≤ 57 then parseDigits cs (acc * 10 + (c.toNat - 48)) else none

/-- Model of `strconv.Atoi` for a 64-bit `int`: an optional sign, then at least
one decimal digit and nothing else; a value outside `[-2^63, 2^63 - 1]` is a
range error. `none` stands for a non-nil error. -/
def Atoi (s : String) : Option Int :=
  let body : Bool × List Char :=
    match s.data with
    | '-' :: rest => (true, rest)
    | '+' :: rest => (false, rest)
    | cs => (false, cs)
  match body.2 with
  | [] => none
  | cs =>
    match parseDigits cs 0 with
    | none => none
    | some v =>
      let n : Int := if body.1 then -(v : Int) else (v : Int)
      if -(2 ^ 63 : Int) ≤ n ∧ n < (2 ^ 63 : Int) then some n else none

/-- Two-complement wrap of an integer into the range of `int64`. -/
def wrapInt64 (n : Int) : Int :=
  (n + 2 ^ 63) % 2 ^ 64 - 2 ^ 63

/-- The constant `time.Minute`, in nanoseconds. -/
def Minute : Int := 60 * 1000000000

/-- The constant `time.Second`, in nanoseconds. -/
def Second : Int := 1000000000

/-- The process environment: `os.LookupEnv`. -/
abbrev Environ := String → Option String

/-- Model of `os.Getenv`: the empty string for an unset variable. -/
def Getenv (env : Environ) (key : String) : String :=
  (env key).getD ""

/-! ## Handles of the external libraries -/

/-- A `*sql.DB` returned by `sql.Open`. -/
structure SqlDB where
  driverName : String
  dsn : String
  deriving DecidableEq, Repr

/-- A `*mongo.Client` returned by `mongo.Connect`. -/
structure MongoClient where
  uri : String
  deriving DecidableEq, Repr

/-- A `*redis.Pool` as `createRedisPool` fills it (`IdleTimeout` in nanoseconds).
The `Dial` and `TestOnBorrow` closures are run by the pool later on and are not
part of the record. -/
structure RedisPool where
  MaxIdle : Nat
  MaxActive : Nat
  IdleTimeout : Int
  deriving DecidableEq, Repr

/-- A `*badger.DB` returned by `badger.Open`. -/
structure BadgerDB where
  dir : String
  deriving DecidableEq, Repr

/-- The struct `cache.RedisCache`. -/
structure RedisCache where
  Conn : Option RedisPool
  Prefix : String
  deriving DecidableEq, Repr

/-- The struct `cache.BadgerCache`. -/
structure BadgerCache where
  Conn : Option BadgerDB
  deriving DecidableEq, Repr

/-- The interface `cache.Cache`, with its two implementations. -/
inductive Cache where
  | redis (c : RedisCache)
  | badger (c : BadgerCache)
  deriving DecidableEq, Repr

/-- A `*cron.Cron`: the schedule specifications of the registered jobs. -/
structure Cron where
  entries : List String
  deriving DecidableEq, Repr

/-- A `*jet.Set`: the directory of its loader and the development-mode option. -/
structure JetSet where
  viewsDir : String
  developmentMode : Bool
  deriving DecidableEq, Repr

/-- The values of `http.SameSite` used by the source. -/
inductive SameSite where
  | SameSiteDefaultMode
  | SameSiteLaxMode
  | SameSiteStrictMode
  deriving DecidableEq, Repr

/-- The fields of `http.Cookie` that the source sets. -/
structure Cookie where
  HttpOnly : Bool
  Path : String
  Secure : Bool
  SameSite : SameSite
  Domain : String
  deriving DecidableEq, Repr

/-! ## Package `sessions` -/

/-- The session stores `InitSession` chooses from. -/
inductive Store where
  /-- the in-memory store that `scs.New` installs -/
  | memstore
  | redisstore (pool : Option RedisPool)
  | mysqlstore (db : Option SqlDB)
  | postgresstore (db : Option SqlDB)
  deriving DecidableEq, Repr

/-- The struct `scs.SessionCookie`. -/
structure SessionCookie where
  Name : String
  Domain : String
  HttpOnly : Bool
  Path : String
  Persist : Bool
  SameSite : SameSite
  Secure : Bool
  deriving DecidableEq, Repr

/-- The struct `scs.SessionManager` (durations in nanoseconds). -/
structure SessionManager where
  IdleTimeout : Int
  Lifetime : Int
  Store : Store
  Cookie : SessionCookie
  deriving DecidableEq, Repr

/-- The value of `scs.New()`: 24 hours of lifetime, the in-memory store and the
default cookie. -/
def scsNew : SessionManager :=
  { IdleTimeout := 0
    Lifetime := 24 * 60 * Minute
    Store := Store.memstore
    Cookie :=
      { Name := "session", Domain := "", HttpOnly := true, Path := "/", Persist := true,
        SameSite := SameSite.SameSiteLaxMode, Secure := false } }

/-- The struct `sessions.Session`. -/
structure Session where
  CookieLifetime : String
  CookiePersist : String
  CookieName : String
  CookieDomain : String
  SessionType : String
  CookieSecure : String
  DBPool : Option SqlDB
  RedisPool : Option RedisPool
  deriving DecidableEq, Repr

/-- Model of `redisstore.New`: the store keeps the pool and does not use it while
it is built. -/
def redisstoreNew (pool : Option RedisPool) : Option Store :=
  some (Store.redisstore pool)

/-- Model of `mysqlstore.New`: while it builds the store it asks the server for
its version through the pool (`db.QueryRow`), so a nil pool is a nil
dereference and the call panics: `none`. -/
def mysqlstoreNew (db : Option SqlDB) : Option Store :=
  match db with
  | none => none
  | some d => some (Store.mysqlstore (some d))

/-- Model of `postgresstore.New`: the store keeps the pool and does not use it
while it is built (its clean-up runs later on, in the background). -/
def postgresstoreNew (db : Option SqlDB) : Option Store :=
  some (Store.postgresstore db)

/-- Model of `(*Session).InitSession` (sessions/session.go). The product
`time.Duration(minutes) * time.Minute` is computed in `int64`. The result is
`none` when the constructor of the store panics, so that no manager is
returned. -/
def InitSession (ul : Char → Char) (s : Session) : Option SessionManager :=
  let minutes : Int :=
    match Atoi s.CookieLifetime with
    | some n => n
    | none => 60
  let persist : Bool := if ToLower ul s.CookiePersist = "true" then true else false
  let secure : Bool := if ToLower ul s.CookieSecure = "true" then true else false
  let session := scsNew
  let session := { session with Lifetime := wrapInt64 (minutes * Minute) }
  let session := { session with Cookie := { session.Cookie with Persist := persist } }
  let session := { session with Cookie := { session.Cookie with Secure := secure } }
  let session := { session with Cookie := { session.Cookie with Name := s.CookieName } }
  let session := { session with Cookie := { session.Cookie with Domain := s.CookieDomain } }
  let session :=
    { session with Cookie := { session.Cookie with SameSite := SameSite.SameSiteLaxMode } }
  let tag := ToLower ul s.SessionType
  if tag = "redis" then
    (redisstoreNew s.RedisPool).map (fun store => { session with Store := store })
  else if tag = "mysql" ∨ tag = "mariadb" then
    (mysqlstoreNew s.DBPool).map (fun store => { session with Store := store })
  else if tag = "postgres" ∨ tag = "postgresql" then
    (postgresstoreNew s.DBPool).map (fun store => { session with Store := store })
  else some session

/-! ## Package `rkt`: types (types.go, rkt.go) -/

/-- The struct `initPaths`. -/
structure initPaths where
  rootPath : String
  folderNames : List String
  deriving DecidableEq, Repr

/-- The struct `cookieConfig`. -/
structure cookieConfig where
  name : String
  lifetime : String
  persists : String
  secure : String
  domain : String
  deriving DecidableEq, Repr

/-- The struct `databaseConfig`. -/
structure databaseConfig where
  dsn : String
  database : String
  deriving DecidableEq, Repr

/-- The struct `Database`. -/
structure Database where
  DataType : String
  Pool : Option SqlDB
  Conn : Option MongoClient
  deriving DecidableEq, Repr

/-- The struct `redisConfig`; the field `keyPrefix` is the source's `prefix`, a
reserved word here. -/
structure redisConfig where
  host : String
  password : String
  keyPrefix : String
  deriving DecidableEq, Repr

/-- The struct `config`. -/
structure config where
  port : String
  renderer : String
  cookie : cookieConfig
  sessionType : String
  database : databaseConfig
  redis : redisConfig
  deriving DecidableEq, Repr

/-- The struct `Server`. -/
structure Server where
  ServerName : String
  Port : String
  Secure : Bool
  URL : String
  deriving DecidableEq, Repr

/-- The struct `mailer.Mail`. -/
structure Mail where
  Domain : String
  Templates : String
  Host : String
  Port : Int
  Username : String
  Password : String
  Encryption : String
  FromAddress : String
  FromName : String
  PublicAPI : String
  PrivateAPI : String
  deriving DecidableEq, Repr

/-- The struct `render.Render`. -/
structure Render where
  Renderer : String
  RootPath : String
  Secure : Bool
  Port : String
  ServerName : String
  JetViews : Option JetSet
  Session : Option SessionManager
  deriving DecidableEq, Repr

/-- The middlewares that `routes` can hand to the router. `SessionLoad` and
`NoSurf` are the method values `r.SessionLoad` and `r.NoSurf`, bound to the
receiver pointer: they read the receiver when the router calls them. -/
inductive Middleware where
  | RequestID
  | RealIP
  | Logger
  | Recoverer
  | SessionLoad
  | NoSurf
  deriving DecidableEq, Repr

/-- A `*chi.Mux`: its middleware stack, in order of installation. -/
structure Mux where
  middlewares : List Middleware
  deriving DecidableEq, Repr

/-- The value of `chi.NewRouter()`. -/
def NewRouter : Mux :=
  { middlewares := [] }

/-- Model of `(*chi.Mux).Use`: the middleware is appended to the stack. -/
def Mux.Use (mx : Mux) (m : Middleware) : Mux :=
  { mx with middlewares := mx.middlewares ++ [m] }

/-- A `*log.Logger`: its line header. -/
structure Logger where
  header : String
  deriving DecidableEq, Repr

/-- The struct `RKT`. -/
structure RKT where
  AppName : String
  Debug : Bool
  Version : String
  ErrorLog : Option Logger
  InfoLog : Option Logger
  RootPath : String
  Routes : Option Mux
  Render : Option Render
  Session : Option SessionManager
  DB : Database
  JetViews : Option JetSet
  config : config
  EncryptionKey : String
  Cache : Option Cache
  Scheduler : Option Cron
  Mail : Mail
  Server : Server
  deriving DecidableEq, Repr

/-- The zero value of `Mail`. -/
def Mail.zero : Mail :=
  { Domain := "", Templates := "", Host := "", Port := 0, Username := "", Password := "",
    Encryption := "", FromAddress := "", FromName := "", PublicAPI := "", PrivateAPI := "" }

/-- The zero value of `config`. -/
def config.zero : config :=
  { port := "", renderer := "",
    cookie := { name := "", lifetime := "", persists := "", secure := "", domain := "" },
    sessionType := "", database := { dsn := "", database := "" },
    redis := { host := "", password := "", keyPrefix := "" } }

/-- The zero value of `RKT`: a fresh receiver, before `New`. -/
def RKT.zero : RKT :=
  { AppName := "", Debug := false, Version := "", ErrorLog := none, InfoLog := none,
    RootPath := "", Routes := none, Render := none, Session := none,
    DB := { DataType := "", Pool := none, Conn := none }, JetViews := none,
    config := config.zero, EncryptionKey := "", Cache := none, Scheduler := none,
    Mail := Mail.zero, Server := { ServerName := "", Port := "", Secure := false, URL := "" } }

/-- The package-level variables of rkt.go. -/
structure Globals where
  myRedisCache : Option RedisCache
  myBadgerCache : Option BadgerCache
  redisPool : Option RedisPool
  badgerConn : Option BadgerDB
  deriving DecidableEq, Repr

/-- The package-level variables before any call. -/
def Globals.zero : Globals :=
  { myRedisCache := none, myBadgerCache := none, redisPool := none, badgerConn := none }

/-- Calls that leave the process, as they appear in the trace. -/
inductive Event where
  | mkdir (path : String)
  | dotenvLoad (file : String)
  | sqlOpen (driverName dsn : String)
  | sqlPing (driverName dsn : String)
  | mongoConnect (uri : String)
  | mongoPing (uri : String)
  | badgerOpen (dir : String)
  | cronAddFunc (spec : String)
  | httpListenAndServe (addr : String)
  | mongoDisconnect (c : MongoClient)
  | sqlClose (db : SqlDB)
  | redisClose (p : RedisPool)
  | badgerClose (db : BadgerDB)
  | migrateNew (sourceURL databaseURL : String)
  | migrateUp
  | migrateClose
  deriving DecidableEq, Repr

/-- The fields of `render.TemplateData`. The four maps are carried as
association lists; the source never reads or writes them. -/
structure TemplateData where
  IsAuthenticated : Bool
  IntMap : List (String × Int)
  StringMap : List (String × String)
  FloatMap : List (String × Int)
  Data : List (String × String)
  CSRFToken : String
  Port : String
  ServerName : String
  Secure : Bool
  Error : String
  Flash : String
  deriving DecidableEq, Repr

/-- A `jet.VarMap`. -/
abbrev VarMap := List (String × String)

/-- The answers of everything outside the process, at the time of one call. -/
structure World where
  /-- the function `unicode.ToLower` on non-ASCII runes -/
  unicodeLower : Char → Char
  /-- the error of the method `CreateDirIfNotExist`, which is declared outside the
  files embedded here -/
  CreateDirIfNotExist : String → Option GoError
  /-- the variables of the file `.env` as `godotenv` reads it; `none` when it fails -/
  dotenv : Option Environ
  sqlOpen : String → String → Option GoError
  sqlPing : String → String → Option GoError
  mongoConnect : String → Option GoError
  mongoPing : String → Option GoError
  badgerOpen : String → Option GoError
  cronAddFunc : String → Option GoError
  /-- the error `(*http.Server).ListenAndServe` returns; it is never nil -/
  httpServe : String → GoError
  /-- the function `filepath.Join` of two elements -/
  filepathJoin : String → String → String
  /-- the function `filepath.ToSlash` -/
  filepathToSlash : String → String
  /-- whether `os.IsNotExist` holds of the error of `os.Stat` on the path -/
  statIsNotExist : String → Bool
  /-- the error of `migrate.New(sourceURL, databaseURL)` -/
  migrateNew : String → String → Option GoError
  /-- the error of `(*migrate.Migrate).Up` on the instance made from the two URLs -/
  migrateUp : String → String → Option GoError
  /-- the error of `template.ParseFiles` on one path -/
  ParseFiles : String → Option GoError
  /-- the error of `(*template.Template).Execute` of the template parsed from the path -/
  goExecute : String → TemplateData → Option GoError
  /-- the error of `(*jet.Set).GetTemplate` -/
  GetTemplate : JetSet → String → Option GoError
  /-- the error of `(*jet.Template).Execute` of the named template of the set -/
  jetExecute : JetSet → String → VarMap → TemplateData → Option GoError

/-- The state a method of `*RKT` runs in. -/
structure St where
  r : RKT
  g : Globals
  env : Environ
  trace : List Event

/-- How a call ends. -/
inductive Outcome (α : Type) where
  /-- the function returned -/
  | returned (val : α) (s : St)
  /-- the call `os.Exit(code)`: the process ends at once, deferred calls are not run -/
  | exited (code : Int) (s : St)
  /-- a run-time panic left the function, after its deferred calls were run -/
  | panicked (s : St)

/-- Append an event to the trace. -/
def St.emit (s : St) (e : Event) : St :=
  { s with trace := s.trace ++ [e] }

/-! ## routes.go and middleware.go -/

/-- Model of `(*RKT).routes`. -/
def routes (r : RKT) : Mux :=
  let mux := NewRouter
  let mux := mux.Use Middleware.RequestID
  let mux := mux.Use Middleware.RealIP
  let mux := if r.Debug then mux.Use Middleware.Logger else mux
  let mux := mux.Use Middleware.Recoverer
  let mux := mux.Use Middleware.SessionLoad
  let mux := mux.Use Middleware.NoSurf
  mux

/-- The `*nosurf.CSRFHandler` as `NoSurf` configures it. -/
structure CSRFHandler where
  exemptGlobs : List String
  baseCookie : Cookie
  deriving DecidableEq, Repr

/-- Model of `(*RKT).NoSurf`: the handler built around `next` when the router
calls the middleware. The receiver is read at that moment. -/
def NoSurf (c : RKT) : CSRFHandler :=
  let secure := (ParseBool c.config.cookie.secure).1
  { exemptGlobs := ["/api/*"]
    baseCookie :=
      { HttpOnly := true, Path := "/", Secure := secure,
        SameSite := SameSite.SameSiteStrictMode, Domain := c.config.cookie.domain } }

/-! ## driver.go -/

/-- Model of `(*RKT).OpenPostgresDB`. -/
def OpenPostgresDB (w : World) (dbType dsn : String) (s : St) :
    (Option SqlDB × Option GoError) × St :=
  let dbType := if dbType = "postgres" ∨ dbType = "postgresql" then "pgx" else dbType
  let s := s.emit (Event.sqlOpen dbType dsn)
  match w.sqlOpen dbType dsn with
  | some err => ((none, some err), s)
  | none =>
    let db : SqlDB := { driverName := dbType, dsn := dsn }
    let s := s.emit (Event.sqlPing dbType dsn)
    match w.sqlPing dbType dsn with
    | some err => ((none, some err), s)
    | none => ((some db, none), s)

/-- Model of `(*RKT).OpenMongoDB`. -/
def OpenMongoDB (w : World) (uri : String) (s : St) :
    (Option MongoClient × Option GoError) × St :=
  let s := s.emit (Event.mongoConnect uri)
  match w.mongoConnect uri with
  | some err => ((none, some err), s)
  | none =>
    let client : MongoClient := { uri := uri }
    let s := s.emit (Event.mongoPing uri)
    match w.mongoPing uri with
    | some err => ((none, some err), s)
    | none => ((some client, none), s)

/-! ## rkt.go -/

/-- The constant `version`. -/
def version : String := "1.0.0"

/-- Model of `(*RKT).BuildDSN`. -/
def BuildDSN (env : Environ) : String :=
  let t := Getenv env "DATABASE_TYPE"
  if t = "postgres" ∨ t = "postgresql" ∨ t = "mongodb" ∨ t = "mongo" then
    Getenv env "DATABASE_CONN_STR"
  else ""

/-- The loop of `(*RKT).Init` over the folder names. -/
def InitLoop (w : World) (rootPath : String) : List String → St → Option GoError × St
  | [], s => (none, s)
  | folder :: rest, s =>
    let s := s.emit (Event.mkdir (rootPath ++ "/" ++ folder))
    match w.CreateDirIfNotExist (rootPath ++ "/" ++ folder) with
    | some err => (some err, s)
    | none => InitLoop w rootPath rest s

/-- Model of `(*RKT).Init`. -/
def Init (w : World) (p : initPaths) (s : St) : Option GoError × St :=
  InitLoop w p.rootPath p.folderNames s

/-- Model of `godotenv.Load(".env")`: a variable of the file is set unless the
environment already has it; a file that cannot be read changes nothing. -/
def godotenvLoad (w : World) (s : St) : Option GoError × St :=
  let s := s.emit (Event.dotenvLoad ".env")
  match w.dotenv with
  | none => (some (GoError.lib "godotenv: cannot load .env"), s)
  | some file =>
    (none, { s with env := fun k => match s.env k with
                                    | some v => some v
                                    | none => file k })

/-- Model of `(*RKT).startLoggers`: the info and the error logger. -/
def startLoggers : Logger × Logger :=
  ({ header := "INFO\t" }, { header := "ERROR\t" })

/-- Model of `(*RKT).createRedisPool`. -/
def createRedisPool (_c : RKT) : RedisPool :=
  { MaxIdle := 50, MaxActive := 10000, IdleTimeout := 240 * Second }

/-- Model of `(*RKT).createClientRedisCache`. -/
def createClientRedisCache (c : RKT) : RedisCache :=
  { Conn := some (createRedisPool c), Prefix := c.config.redis.keyPrefix }

/-- Model of `(*RKT).createBadgerConn`. -/
def createBadgerConn (w : World) (s : St) : Option BadgerDB × St :=
  let dir := s.r.RootPath ++ "/tmp/badger"
  let s := s.emit (Event.badgerOpen dir)
  match w.badgerOpen dir with
  | some _ => (none, s)
  | none => (some { dir := dir }, s)

/-- Model of `(*RKT).createClientBadgerCache`. -/
def createClientBadgerCache (w : World) (s : St) : BadgerCache × St :=
  let res := createBadgerConn w s
  ({ Conn := res.1 }, res.2)

/-- Model of `(*RKT).createMailer`. -/
def createMailer (c : RKT) (env : Environ) : Mail :=
  { Mail.zero with
    Templates := c.RootPath ++ "/mail"
    FromName := Getenv env "FROM_NAME"
    FromAddress := Getenv env "FROM_ADDRESS"
    PublicAPI := Getenv env "PUBLIC_API"
    PrivateAPI := Getenv env "PRIVATE_API" }

/-- Model of `(*RKT).createRenderer`. -/
def createRenderer (r : RKT) : RKT :=
  { r with
    Render := some
      { Renderer := r.config.renderer, RootPath := r.RootPath, Secure := false,
        Port := r.config.port, ServerName := "", JetViews := r.JetViews,
        Session := r.Session } }

/-- The part of `New` that loads the environment file (rkt.go, lines 104-112). -/
def New_env (w : World) (s : St) : St :=
  if Getenv s.env "RENDER" = "" then (godotenvLoad w s).2 else s

/-- The part of `New` that connects to the database (rkt.go, lines 118-147). -/
def New_database (w : World) (s : St) : Outcome Unit :=
  if Getenv s.env "DATABASE_TYPE" ≠ "" then
    if Getenv s.env "DATABASE_TYPE" = "mongodb" then
      match OpenMongoDB w (BuildDSN s.env) s with
      | ((_, some _), s) => Outcome.exited 1 s
      | ((mongoClient, none), s) =>
        Outcome.returned ()
          { s with r := { s.r with DB := { DataType := Getenv s.env "DATABASE_TYPE",
                                           Pool := none, Conn := mongoClient } } }
    else if Getenv s.env "DATABASE_TYPE" = "postgresql"
        ∨ Getenv s.env "DATABASE_TYPE" = "postgres" then
      match OpenPostgresDB w (Getenv s.env "DATABASE_TYPE") (BuildDSN s.env) s with
      | ((_, some _), s) => Outcome.exited 1 s
      | ((db, none), s) =>
        Outcome.returned ()
          { s with r := { s.r with DB := { DataType := Getenv s.env "DATABASE_TYPE",
                                           Pool := db, Conn := none } } }
    else Outcome.returned () s
  else Outcome.returned () s

/-- The part of `New` that builds the scheduler and the caches (rkt.go, lines
149-169); the error is the one `New` returns when `AddFunc` fails. -/
def New_cache (w : World) (s : St) : Option GoError × St :=
  let s := { s with r := { s.r with Scheduler := some { entries := [] } } }
  let s :=
    if Getenv s.env "CACHE" = "redis" ∨ Getenv s.env "SESSION_TYPE" = "redis" then
      let c := createClientRedisCache s.r
      { s with g := { s.g with myRedisCache := some c, redisPool := c.Conn },
               r := { s.r with Cache := some (Cache.redis c) } }
    else s
  if Getenv s.env "CACHE" = "badger" then
    let res := createClientBadgerCache w s
    let s := res.2
    let s := { s with g := { s.g with myBadgerCache := some res.1, badgerConn := res.1.Conn },
                      r := { s.r with Cache := some (Cache.badger res.1) } }
    let s := s.emit (Event.cronAddFunc "@daily")
    match w.cronAddFunc "@daily" with
    | some err => (some err, s)
    | none =>
      let scheduler := Option.map (fun c => { c with entries := c.entries ++ ["@daily"] })
        s.r.Scheduler
      (none, { s with r := { s.r with Scheduler := scheduler } })
  else (none, s)

/-- The rest of `New` (rkt.go, lines 171-251). `none` is a panic: the nil
dereference of `myRedisCache` at line 228, or the panic of `InitSession` at
line 233. -/
def New_configure (w : World) (rootPath : String) (s : St) : Option St :=
  let env := s.env
  let r := s.r
  let r := { r with InfoLog := some startLoggers.1 }
  let r := { r with ErrorLog := some startLoggers.2 }
  let r := { r with Debug := (ParseBool (Getenv env "DEBUG")).1 }
  let r := { r with Version := version }
  let r := { r with RootPath := rootPath }
  let r := { r with Mail := createMailer r env }
  let r := { r with Routes := some (routes r) }
  let r := { r with config :=
    { port := Getenv env "PORT"
      renderer := Getenv env "RENDERER"
      cookie :=
        { name := Getenv env "COOKIE_NAME"
          lifetime := Getenv env "COOKIE_LIFETIME"
          persists := Getenv env "COOKIE_PERSISTS"
          secure := Getenv env "COOKIE_SECURE"
          domain := Getenv env "COOKIE_DOMAIN" }
      sessionType := Getenv env "SESSION_TYPE"
      database := { database := Getenv env "DATABASE_TYPE", dsn := BuildDSN env }
      redis :=
        { host := Getenv env "REDIS_HOST"
          password := Getenv env "REDIS_PASSWORD"
          keyPrefix := Getenv env "REDIS_PREFIX" } } }
  let secure : Bool :=
    if ToLower w.unicodeLower (Getenv env "SECURE") = "false" then false else true
  let r := { r with Server :=
    { ServerName := Getenv env "SERVER_NAME"
      Port := Getenv env "PORT"
      Secure := secure
      URL := Getenv env "APP_URL" } }
  let session : Session :=
    { CookieLifetime := r.config.cookie.lifetime
      CookiePersist := r.config.cookie.persists
      CookieName := r.config.cookie.name
      CookieDomain := r.config.cookie.domain
      CookieSecure := r.config.cookie.secure
      SessionType := r.config.sessionType
      DBPool := r.DB.Pool
      RedisPool := none }
  let session? : Option Session :=
    if r.config.sessionType = "redis" then
      match s.g.myRedisCache with
      | some c => some { session with RedisPool := c.Conn }
      | none => none
    else if r.config.sessionType = "mysql" ∨ r.config.sessionType = "postgres"
        ∨ r.config.sessionType = "mariadb" ∨ r.config.sessionType = "postgresql" then
      some { session with DBPool := r.DB.Pool }
    else some session
  match session? with
  | none => none
  | some session =>
    match InitSession w.unicodeLower session with
    | none => none
    | some manager =>
      let r := { r with Session := some manager }
      let r := { r with EncryptionKey := Getenv env "KEY" }
      let r :=
        if r.Debug then
          { r with JetViews := some { viewsDir := rootPath ++ "/views", developmentMode := true } }
        else
          { r with JetViews := some { viewsDir := rootPath ++ "/views", developmentMode := false } }
      let r := createRenderer r
      some { s with r := r }

/-- The folder names `New` hands to `Init`. -/
def folderNames : List String :=
  ["handlers", "migrations", "views", "mail", "data", "public", "temp", "logs", "middleware"]

/-- Model of `(*RKT).New`: the returned error, or the end of the process. -/
def New (w : World) (rootPath : String) (s : St) : Outcome (Option GoError) :=
  match Init w { rootPath := rootPath, folderNames := folderNames } s with
  | (some err, s) => Outcome.returned (some err) s
  | (none, s) =>
    let s := New_env w s
    match New_database w s with
    | Outcome.exited code s => Outcome.exited code s
    | Outcome.panicked s => Outcome.panicked s
    | Outcome.returned _ s =>
      match New_cache w s with
      | (some err, s) => Outcome.returned (some err) s
      | (none, s) =>
        match New_configure w rootPath s with
        | none => Outcome.panicked s
        | some s => Outcome.returned none s

/-- The calls `ListenAndServe` defers. -/
inductive Deferred where
  | mongoDisconnect (c : MongoClient)
  | sqlClose (db : SqlDB)
  | redisClose (p : RedisPool)
  | badgerClose (db : BadgerDB)
  deriving DecidableEq, Repr

/-- The event of a deferred call. -/
def Deferred.event : Deferred → Event
  | Deferred.mongoDisconnect c => Event.mongoDisconnect c
  | Deferred.sqlClose db => Event.sqlClose db
  | Deferred.redisClose p => Event.redisClose p
  | Deferred.badgerClose db => Event.badgerClose db

/-- Run a stack of deferred calls; its head is the call deferred last. -/
def runDeferred : List Deferred → St → St
  | [], s => s
  | d :: ds, s => runDeferred ds (s.emit d.event)

/-- Push a deferred call when the handle is not nil. -/
def deferIf (h : Option α) (f : α → Deferred) (stack : List Deferred) : List Deferred :=
  match h with
  | some a => f a :: stack
  | none => stack

/-- Model of `(*RKT).ListenAndServe`. `Println` and `Fatal` on a nil logger
panic, and a panic runs the deferred calls; `Fatal` on a logger writes the
error and calls `os.Exit(1)`, which does not run them. -/
def ListenAndServe (w : World) (s : St) : Outcome Unit :=
  let addr := ":" ++ Getenv s.env "PORT"
  let stack : List Deferred := []
  let stack := deferIf s.r.DB.Conn Deferred.mongoDisconnect stack
  let stack := deferIf s.r.DB.Pool Deferred.sqlClose stack
  let stack := deferIf s.g.redisPool Deferred.redisClose stack
  let stack := deferIf s.g.badgerConn Deferred.badgerClose stack
  match s.r.InfoLog with
  | none => Outcome.panicked (runDeferred stack s)
  | some _ =>
    let s := s.emit (Event.httpListenAndServe addr)
    let _err := w.httpServe addr
    match s.r.ErrorLog with
    | none => Outcome.panicked (runDeferred stack s)
    | some _ => Outcome.exited 1 s

/-! ## migrations.go -/

/-- Model of `(*RKT).getMigrationPath`; both branches on the operating system
return the same string. -/
def getMigrationPath (w : World) (c : RKT) : String × Option GoError :=
  let migrationDir := w.filepathJoin c.RootPath "migrations"
  if w.statIsNotExist migrationDir then
    ("", some (GoError.errorf ("migration directory does not exist: " ++ migrationDir)))
  else
    let migrationDir := w.filepathToSlash migrationDir
    ("file://" ++ migrationDir, none)

/-- Model of `(*RKT).MigrateUp`: the returned error and the state, whose trace
has the deferred `m.Close()` last. -/
def MigrateUp (w : World) (dsn : String) (s : St) : Option GoError × St :=
  match getMigrationPath w s.r with
  | (_, some err) => (some err, s)
  | (migrationPath, none) =>
    let s := s.emit (Event.migrateNew migrationPath dsn)
    match w.migrateNew migrationPath dsn with
    | some err => (some (GoError.wrap "failed to create migrate instance" err), s)
    | none =>
      let s := s.emit Event.migrateUp
      match w.migrateUp migrationPath dsn with
      | some err =>
        if err ≠ GoError.ErrNoChange then (some err, s.emit Event.migrateClose)
        else (none, s.emit Event.migrateClose)
      | none => (none, s.emit Event.migrateClose)

/-! ## Package `render` -/

/-- A value kept in the session. -/
inductive SessionValue where
  | str (v : String)
  | other (repr : String)
  deriving DecidableEq, Repr

/-- The data of one session, as `LoadAndSave` puts it in the request context. -/
abbrev SessionData := List (String × SessionValue)

/-- What the renderer reads of a `*http.Request`: the token `nosurf.Token`
returns for it, and the session data of its context (`none` when the request
did not pass through `LoadAndSave`). -/
structure Request where
  csrfToken : String
  session : Option SessionData
  deriving DecidableEq, Repr

/-- The zero value of `TemplateData`. -/
def TemplateData.zero : TemplateData :=
  { IsAuthenticated := false, IntMap := [], StringMap := [], FloatMap := [], Data := [],
    CSRFToken := "", Port := "", ServerName := "", Secure := false, Error := "", Flash := "" }

/-- An argument of static type `any` where `*TemplateData` is expected. -/
inductive AnyData where
  | nil
  | templateData (td : TemplateData)
  | other (repr : String)
  deriving DecidableEq, Repr

/-- An argument of static type `any` where `jet.VarMap` is expected. -/
inductive AnyVars where
  | nil
  | varMap (vars : VarMap)
  | other (repr : String)
  deriving DecidableEq, Repr

/-- A call of `Execute` made by the renderer. -/
inductive Execution where
  | goTemplate (path : String) (data : TemplateData)
  | jetTemplate (name : String) (vars : VarMap) (data : TemplateData)
  deriving DecidableEq, Repr

/-- The payload of an execution. -/
def Execution.data : Execution → TemplateData
  | Execution.goTemplate _ data => data
  | Execution.jetTemplate _ _ data => data

/-- How a call of the renderer ends. -/
inductive PageResult where
  /-- the call returned `err`; `executed` is the call of `Execute` it made, if
  any, and `session` the session data it left in the request context -/
  | returned (err : Option GoError) (executed : Option Execution) (session : Option SessionData)
  /-- a run-time panic: a failed type assertion, a nil pointer, or a request
  without session data -/
  | panicked
  deriving DecidableEq, Repr

/-- Model of `(*scs.SessionManager).Exists`. -/
def SessionData.Exists (d : SessionData) (key : String) : Bool :=
  (d.lookup key).isSome

/-- Model of `(*scs.SessionManager).PopString`: the string under the key (the
empty string when absent or not a string) and the data without the key. -/
def SessionData.PopString (d : SessionData) (key : String) : String × SessionData :=
  match d.lookup key with
  | some (SessionValue.str v) => (v, d.filter (fun kv => kv.1 ≠ key))
  | some (SessionValue.other _) => ("", d.filter (fun kv => kv.1 ≠ key))
  | none => ("", d)

/-- Model of `(*Render).defaultData`; `none` is a panic (nil session manager,
or no session data in the request context). -/
def defaultData (c : Render) (td : TemplateData) (r : Request) :
    Option (TemplateData × SessionData) :=
  let td := { td with Secure := c.Secure }
  let td := { td with ServerName := c.ServerName }
  let td := { td with CSRFToken := r.csrfToken }
  let td := { td with Port := c.Port }
  match c.Session, r.session with
  | some _, some d =>
    let td := if d.Exists "userID" then { td with IsAuthenticated := true } else td
    let e := d.PopString "error"
    let td := { td with Error := e.1 }
    let f := e.2.PopString "flash"
    let td := { td with Flash := f.1 }
    some (td, f.2)
  | _, _ => none

/-- Model of `(*Render).GoPage`; the result of `template.Execute` is dropped. -/
def GoPage (w : World) (rdr : Render) (r : Request) (view : String) (data : AnyData) :
    PageResult :=
  let path := rdr.RootPath ++ "/views/" ++ view ++ ".page.tmpl"
  match w.ParseFiles path with
  | some err => PageResult.returned (some err) none r.session
  | none =>
    match data with
    | AnyData.other _ => PageResult.panicked
    | AnyData.nil =>
      let _ := w.goExecute path TemplateData.zero
      PageResult.returned none (some (Execution.goTemplate path TemplateData.zero)) r.session
    | AnyData.templateData templateData =>
      let _ := w.goExecute path templateData
      PageResult.returned none (some (Execution.goTemplate path templateData)) r.session

/-- Model of `(*Render).JetPage`. -/
def JetPage (w : World) (rdr : Render) (r : Request) (templateName : String)
    (variables_ : AnyVars) (data : AnyData) : PageResult :=
  let vars? : Option VarMap :=
    match variables_ with
    | AnyVars.nil => some []
    | AnyVars.varMap v => some v
    | AnyVars.other _ => none
  match vars? with
  | none => PageResult.panicked
  | some vars =>
    let template? : Option TemplateData :=
      match data with
      | AnyData.nil => some TemplateData.zero
      | AnyData.templateData td => some td
      | AnyData.other _ => none
    match template? with
    | none => PageResult.panicked
    | some template =>
      match defaultData rdr template r with
      | none => PageResult.panicked
      | some (template, session) =>
        match rdr.JetViews with
        | none => PageResult.panicked
        | some views =>
          match w.GetTemplate views (templateName ++ ".jet") with
          | some err => PageResult.returned (some err) none (some session)
          | none =>
            match w.jetExecute views (templateName ++ ".jet") vars template with
            | some err =>
              PageResult.returned (some err)
                (some (Execution.jetTemplate (templateName ++ ".jet") vars template))
                (some session)
            | none =>
              PageResult.returned none
                (some (Execution.jetTemplate (templateName ++ ".jet") vars template))
                (some session)

/-- Model of `(*Render).Page`. -/
def Page (w : World) (rdr : Render) (r : Request) (view : String)
    (variables_ : AnyVars) (data : AnyData) : PageResult :=
  let tag := ToLower w.unicodeLower rdr.Renderer
  if tag = "go" then GoPage w rdr r view data
  else if tag = "jet" then JetPage w rdr r view variables_ data
  else PageResult.returned none none r.session

/-! ## Worlds and inputs used in the examples -/

/-- A world in which every call succeeds: no `.env` file is loaded, every
directory can be made, every connection opens. -/
def World.quiet : World :=
  { unicodeLower := id
    CreateDirIfNotExist := fun _ => none
    dotenv := none
    sqlOpen := fun _ _ => none
    sqlPing := fun _ _ => none
    mongoConnect := fun _ => none
    mongoPing := fun _ => none
    badgerOpen := fun _ => none
    cronAddFunc := fun _ => none
    httpServe := fun addr => GoError.lib ("listen tcp " ++ addr ++ ": bind: address already in use")
    filepathJoin := fun a b => a ++ "/" ++ b
    filepathToSlash := id
    statIsNotExist := fun _ => false
    migrateNew := fun _ _ => none
    migrateUp := fun _ _ => none
    ParseFiles := fun _ => none
    goExecute := fun _ _ => none
    GetTemplate := fun _ _ => none
    jetExecute := fun _ _ _ _ => none }

/-- An environment given by a list of assignments. -/
def envOf (vars : List (String × String)) : Environ :=
  fun k => vars.lookup k

/-- The state of a fresh process: a zero receiver, zero package variables, the
given environment and an empty trace. -/
def St.fresh (env : Environ) : St :=
  { r := RKT.zero, g := Globals.zero, env := env, trace := [] }

/-- The state in which a call ended. -/
def Outcome.state : Outcome α → St
  | Outcome.returned _ s => s
  | Outcome.exited _ s => s
  | Outcome.panicked s => s

/-- The is-authenticated flag of the payload the caller hands to `Page`; the
zero payload stands in for nil. -/
def AnyData.callerFlag : AnyData → Bool
  | AnyData.templateData td => td.IsAuthenticated
  | _ => false

/-- A session description with the given lifetime string and type tag. -/
def Session.sample (lifetime tag : String) : Session :=
  { CookieLifetime := lifetime, CookiePersist := "true", CookieName := "rkt",
    CookieDomain := "localhost", SessionType := tag, CookieSecure := "false",
    DBPool := some { driverName := "pgx", dsn := "postgres://db" },
    RedisPool := some { MaxIdle := 50, MaxActive := 10000, IdleTimeout := 240 * Second } }

/-- A session description with the given type tag and no relational pool, as
`New` builds it when no database is open. -/
def Session.withoutPool (tag : String) : Session :=
  { CookieLifetime := "60", CookiePersist := "true", CookieName := "rkt",
    CookieDomain := "localhost", SessionType := tag, CookieSecure := "false",
    DBPool := none, RedisPool := none }

/-- Whether a call ended in a panic. -/
def Outcome.isPanic : Outcome α → Bool
  | Outcome.panicked _ => true
  | _ => false

/-- The manager `InitSession` returns for `Session.sample`, with the given
lifetime in nanoseconds and the given store. -/
def SessionManager.sample (lifetime : Int) (store : Rkt.Store) : SessionManager :=
  { IdleTimeout := 0, Lifetime := lifetime, Store := store,
    Cookie :=
      { Name := "rkt", Domain := "localhost", HttpOnly := true, Path := "/", Persist := true,
        SameSite := SameSite.SameSiteLaxMode, Secure := false } }

/-- A renderer for the views under `/app`, with the given engine tag. -/
def Render.sample (engine : String) : Render :=
  { Renderer := engine, RootPath := "/app", Secure := false, Port := "8080", ServerName := "",
    JetViews := some { viewsDir := "/app/views", developmentMode := false },
    Session := some scsNew }

/-- A world whose database is fully migrated: apply-all finds nothing to apply
and reports no change. -/
def World.migrated : World :=
  { World.quiet with migrateUp := fun _ _ => some GoError.ErrNoChange }

/-- A world whose database refuses the migrations. -/
def World.dirty : World :=
  { World.quiet with migrateUp := fun _ _ => some (GoError.lib "Dirty database version 3") }

/-- An environment with a relational database, the embedded cache, redis
sessions and port 8080. -/
def Environ.serving : Environ :=
  envOf [("DATABASE_TYPE", "postgres"), ("DATABASE_CONN_STR", "postgres://db"),
    ("CACHE", "badger"), ("SESSION_TYPE", "redis"), ("PORT", "8080")]

/-- The state `New` leaves for the root `/app` in the environment
`Environ.serving`, in a world where every call succeeds. -/
def St.booted : St :=
  (New World.quiet "/app" (St.fresh Environ.serving)).state

/-- A world in which executing a parsed Go template fails. -/
def World.brokenView : World :=
  { World.quiet with
    goExecute := fun _ _ => some (GoError.lib "template: executing: nil pointer evaluating") }

/-- A request that passed through the session and CSRF middlewares. -/
def Request.sample (d : SessionData) : Request :=
  { csrfToken := "token", session := some d }

/-- The state `New` ends in for the root `/app`, a fresh receiver and the given
environment, in a world where every call succeeds. -/
def bootState (vars : List (String × String)) : St :=
  (New World.quiet "/app" (St.fresh (envOf vars))).state

/-- Whether an event closes a resource. -/
def Event.isClose : Event → Bool
  | Event.mongoDisconnect _ => true
  | Event.sqlClose _ => true
  | Event.redisClose _ => true
  | Event.badgerClose _ => true
  | _ => false

/-! ## Theorems -/

/-! ### C1: the middleware pipeline -/

/-- C1. Whatever the debug flag, the middleware stack that `routes` installs is
request-ID, real-IP, then the access logger exactly when `Debug` is set, then
panic recoverer, session load/save and CSRF guard, and nothing else. -/
theorem routes_middlewares (r : RKT) :
    (routes r).middlewares =
      [Middleware.RequestID, Middleware.RealIP]
        ++ (if r.Debug then [Middleware.Logger] else [])
        ++ [Middleware.Recoverer, Middleware.SessionLoad, Middleware.NoSurf] := by
  cases h : r.Debug <;> simp [routes, Mux.Use, NewRouter, h]

/-! ### C8 and C9: the session manager -/

/-- A product that fits `int64` is not changed by the wrap. -/
theorem wrapInt64_of_fits (n : Int) (hlo : -(2 ^ 63 : Int) ≤ n) (hhi : n < (2 ^ 63 : Int)) :
    wrapInt64 n = n := by
  unfold wrapInt64
  rw [Int.emod_eq_of_lt (by omega) (by omega)]
  omega

/-- A manager `InitSession` returns has the lifetime computed from the result of
`Atoi`, and the lax same-site mode. -/
theorem InitSession_some (ul : Char → Char) (s : Session) (m : SessionManager)
    (h : InitSession ul s = some m) :
    m.Lifetime =
        wrapInt64 ((match Atoi s.CookieLifetime with
                    | some n => n
                    | none => 60) * Minute)
      ∧ m.Cookie.SameSite = SameSite.SameSiteLaxMode := by
  unfold InitSession at h
  simp only [redisstoreNew, mysqlstoreNew, postgresstoreNew] at h
  split_ifs at h
  all_goals
    first
    | (simp only [Option.map_some', Option.some.injEq] at h
       subst h
       exact ⟨rfl, rfl⟩)
    | (cases hp : s.DBPool with
       | none => simp [hp] at h
       | some d =>
         simp only [hp, Option.map_some', Option.some.injEq] at h
         subst h
         exact ⟨rfl, rfl⟩)

/-- The store of the manager `InitSession` returns, by lowered tag; for the tags
`mysql` and `mariadb` a manager is returned only when the pool is not nil. -/
theorem InitSession_Store_eq (ul : Char → Char) (s : Session) :
    Option.map SessionManager.Store (InitSession ul s) =
      (if ToLower ul s.SessionType = "redis" then some (Store.redisstore s.RedisPool)
       else if ToLower ul s.SessionType = "mysql" ∨ ToLower ul s.SessionType = "mariadb" then
         Option.map (fun d => Store.mysqlstore (some d)) s.DBPool
       else if ToLower ul s.SessionType = "postgres"
           ∨ ToLower ul s.SessionType = "postgresql" then
         some (Store.postgresstore s.DBPool)
       else some Store.memstore) := by
  unfold InitSession
  simp only [redisstoreNew, mysqlstoreNew, postgresstoreNew]
  split_ifs
  all_goals
    first
    | rfl
    | (cases s.DBPool <;> rfl)

/-- Apart from the tags `mysql` and `mariadb` with a nil pool, `InitSession`
returns a manager. -/
theorem InitSession_isSome (ul : Char → Char) (s : Session)
    (h : (ToLower ul s.SessionType ≠ "mysql" ∧ ToLower ul s.SessionType ≠ "mariadb")
      ∨ s.DBPool ≠ none) :
    (InitSession ul s).isSome = true := by
  have hst := InitSession_Store_eq ul s
  cases hm : InitSession ul s with
  | some m => rfl
  | none =>
    rw [hm] at hst
    simp only [Option.map_none'] at hst
    split_ifs at hst with h1 h2 h3
    · rcases h with h | h
      · exact absurd h2 (by intro hc; rcases hc with hc | hc; exact h.1 hc; exact h.2 hc)
      · cases hp : s.DBPool with
        | none => exact absurd hp h
        | some d => simp [hp] at hst

/-- C8, counterexample. The lifetime string `153722868` parses, yet the stored
lifetime is negative and is not 153722868 minutes: the product with
`time.Minute` leaves the range of `int64`. -/
theorem InitSession_overflow_counterexample :
    Atoi "153722868" = some 153722868
      ∧ InitSession id (Session.sample "153722868" "")
          = some (SessionManager.sample (-9223371993709551616) Store.memstore)
      ∧ (SessionManager.sample (-9223371993709551616) Store.memstore).Lifetime
          ≠ 153722868 * Minute := by
  refine ⟨by decide, by decide, by decide⟩

/-- C8, amended. The session manager `InitSession` returns (it returns one
unless the tag is `mysql` or `mariadb` and the pool is nil) has, when the
lifetime string parses as `n`, the `int64` product of `n` and one minute as
lifetime, which is `n` minutes whenever `-153722867 ≤ n ≤ 153722867`; when the
string does not parse, its lifetime is 60 minutes; the same-site mode of its
cookie is lax in every case. -/
theorem InitSession_lifetime (ul : Char → Char) (s : Session) :
    ((ToLower ul s.SessionType ≠ "mysql" ∧ ToLower ul s.SessionType ≠ "mariadb")
        ∨ s.DBPool ≠ none → (InitSession ul s).isSome = true)
      ∧ ∀ m : SessionManager, InitSession ul s = some m →
          (∀ n : Int, Atoi s.CookieLifetime = some n →
              m.Lifetime = wrapInt64 (n * Minute)
                ∧ (-153722867 ≤ n → n ≤ 153722867 → m.Lifetime = n * Minute))
            ∧ (Atoi s.CookieLifetime = none → m.Lifetime = 60 * Minute)
            ∧ m.Cookie.SameSite = SameSite.SameSiteLaxMode := by
  refine ⟨InitSession_isSome ul s, fun m hm => ?_⟩
  obtain ⟨hl, hs⟩ := InitSession_some ul s m hm
  refine ⟨?_, ?_, hs⟩
  · intro n hn
    rw [hl, hn]
    refine ⟨rfl, fun hlo hhi => ?_⟩
    apply wrapInt64_of_fits <;> simp only [Minute] <;> omega
  · intro hn
    rw [hl, hn]
    decide

/-- C8, witness: `45` gives 45 minutes, `abc` and the empty string give 60
minutes, each with a lax cookie. -/
theorem InitSession_lifetime_witness :
    (InitSession id (Session.sample "45" "postgres")
          = some (SessionManager.sample (45 * Minute)
              (Store.postgresstore (Session.sample "45" "postgres").DBPool))
        ∧ (SessionManager.sample (45 * Minute)
            (Store.postgresstore (Session.sample "45" "postgres").DBPool)).Lifetime
          = 45 * Minute)
      ∧ (InitSession id (Session.sample "abc" "") = some (SessionManager.sample (60 * Minute)
            Store.memstore)
        ∧ (SessionManager.sample (60 * Minute) Store.memstore).Lifetime = 60 * Minute
        ∧ (SessionManager.sample (60 * Minute) Store.memstore).Cookie.SameSite
            = SameSite.SameSiteLaxMode)
      ∧ (InitSession id (Session.sample "" "") = some (SessionManager.sample (60 * Minute)
            Store.memstore)
        ∧ (InitSession id (Session.sample "" "")).isSome = true) :=
  ⟨⟨by decide,
      ((((InitSession_lifetime id (Session.sample "45" "postgres")).2
          (SessionManager.sample (45 * Minute)
            (Store.postgresstore (Session.sample "45" "postgres").DBPool)) (by decide)).1 45
        (by decide)).2 (by decide) (by decide))⟩,
    ⟨by decide,
      ((InitSession_lifetime id (Session.sample "abc" "")).2
        (SessionManager.sample (60 * Minute) Store.memstore) (by decide)).2.1 (by decide),
      ((InitSession_lifetime id (Session.sample "abc" "")).2
        (SessionManager.sample (60 * Minute) Store.memstore) (by decide)).2.2⟩,
    ⟨by decide,
      (InitSession_lifetime id (Session.sample "" "")).1 (Or.inl ⟨by decide, by decide⟩)⟩⟩

/-- C9, counterexample. For the tags `mysql` and `MariaDB` with a nil pool,
`mysqlstore.New` panics and `InitSession` returns no manager, so no MySQL store
is chosen; `New` reaches this with `SESSION_TYPE=mysql` and no database open,
and ends in a panic. -/
theorem InitSession_mysql_nil_counterexample :
    ToLower id (Session.withoutPool "mysql").SessionType = "mysql"
      ∧ InitSession id (Session.withoutPool "mysql") = none
      ∧ ToLower id (Session.withoutPool "MariaDB").SessionType = "mariadb"
      ∧ InitSession id (Session.withoutPool "MariaDB") = none
      ∧ (New World.quiet "/app" (St.fresh (envOf [("SESSION_TYPE", "mysql")]))).isPanic
          = true := by
  refine ⟨by decide, by decide, by decide, by decide, by decide⟩

/-- C9, amended. `InitSession` returns a manager whose store is chosen by the
lowered tag: redis over `RedisPool` for `redis`; MySQL over `DBPool` for
`mysql` and `mariadb` when `DBPool` is not nil; Postgres over `DBPool` for
`postgres` and `postgresql`; for any other tag the store of `scs.New`, the
in-memory store, stays. -/
theorem InitSession_store (ul : Char → Char) (s : Session) :
    (ToLower ul s.SessionType = "redis" →
        Option.map SessionManager.Store (InitSession ul s)
          = some (Store.redisstore s.RedisPool))
      ∧ (ToLower ul s.SessionType = "mysql" ∨ ToLower ul s.SessionType = "mariadb" →
          s.DBPool ≠ none →
        Option.map SessionManager.Store (InitSession ul s)
          = some (Store.mysqlstore s.DBPool))
      ∧ (ToLower ul s.SessionType = "postgres" ∨ ToLower ul s.SessionType = "postgresql" →
        Option.map SessionManager.Store (InitSession ul s)
          = some (Store.postgresstore s.DBPool))
      ∧ (ToLower ul s.SessionType ≠ "redis" → ToLower ul s.SessionType ≠ "mysql" →
          ToLower ul s.SessionType ≠ "mariadb" → ToLower ul s.SessionType ≠ "postgres" →
          ToLower ul s.SessionType ≠ "postgresql" →
        Option.map SessionManager.Store (InitSession ul s) = some scsNew.Store
          ∧ Option.map SessionManager.Store (InitSession ul s) = some Store.memstore) := by
  rw [InitSession_Store_eq]
  refine ⟨?_, ?_, ?_, ?_⟩
  · intro h
    rw [if_pos h]
  · intro h hp
    have h1 : ToLower ul s.SessionType ≠ "redis" := by
      rcases h with h | h <;> rw [h] <;> decide
    rw [if_neg h1, if_pos h]
    cases hd : s.DBPool with
    | none => exact absurd hd hp
    | some d => rfl
  · intro h
    have h1 : ToLower ul s.SessionType ≠ "redis" := by
      rcases h with h | h <;> rw [h] <;> decide
    have h2 : ¬ (ToLower ul s.SessionType = "mysql" ∨ ToLower ul s.SessionType = "mariadb") := by
      rcases h with h | h <;> rw [h] <;> decide
    rw [if_neg h1, if_neg h2, if_pos h]
  · intro h1 h2 h3 h4 h5
    have h23 : ¬ (ToLower ul s.SessionType = "mysql" ∨ ToLower ul s.SessionType = "mariadb") := by
      intro hc
      rcases hc with hc | hc
      · exact h2 hc
      · exact h3 hc
    have h45 : ¬ (ToLower ul s.SessionType = "postgres"
        ∨ ToLower ul s.SessionType = "postgresql") := by
      intro hc
      rcases hc with hc | hc
      · exact h4 hc
      · exact h5 hc
    rw [if_neg h1, if_neg h23, if_neg h45]
    exact ⟨rfl, rfl⟩

/-- C9, witness: the tags `Redis`, `MARIADB` (with a pool), `postgresql` and the
empty tag. -/
theorem InitSession_store_witness :
    Option.map SessionManager.Store (InitSession id (Session.sample "60" "Redis"))
        = some (Store.redisstore (Session.sample "60" "Redis").RedisPool)
      ∧ Option.map SessionManager.Store (InitSession id (Session.sample "60" "MARIADB"))
        = some (Store.mysqlstore (Session.sample "60" "MARIADB").DBPool)
      ∧ Option.map SessionManager.Store (InitSession id (Session.sample "60" "postgresql"))
        = some (Store.postgresstore (Session.sample "60" "postgresql").DBPool)
      ∧ Option.map SessionManager.Store (InitSession id (Session.sample "60" ""))
        = some Store.memstore :=
  ⟨(InitSession_store id (Session.sample "60" "Redis")).1 (by decide),
    (InitSession_store id (Session.sample "60" "MARIADB")).2.1 (by decide) (by decide),
    (InitSession_store id (Session.sample "60" "postgresql")).2.2.1 (by decide),
    ((InitSession_store id (Session.sample "60" "")).2.2.2 (by decide) (by decide)
      (by decide) (by decide) (by decide)).2⟩

/-! ### C10: apply-all migrations -/

/-- The value `MigrateUp` returns once the migration directory exists and the
migrator instance has been made. -/
theorem MigrateUp_of_instance (w : World) (dsn : String) (s : St)
    (hdir : w.statIsNotExist (w.filepathJoin s.r.RootPath "migrations") = false)
    (hnew : w.migrateNew
      ("file://" ++ w.filepathToSlash (w.filepathJoin s.r.RootPath "migrations")) dsn = none) :
    (MigrateUp w dsn s).1 =
      (match w.migrateUp
          ("file://" ++ w.filepathToSlash (w.filepathJoin s.r.RootPath "migrations")) dsn with
        | none => none
        | some e => if e = GoError.ErrNoChange then none else some e) := by
  simp only [MigrateUp, getMigrationPath, hdir, hnew]
  cases hup : w.migrateUp
      ("file://" ++ w.filepathToSlash (w.filepathJoin s.r.RootPath "migrations")) dsn with
  | none => simp [hnew, hup]
  | some e => by_cases he : e = GoError.ErrNoChange <;> simp [hnew, hup, he]

/-- The receiver is left as it was by `MigrateUp`. -/
theorem MigrateUp_receiver (w : World) (dsn : String) (s : St) :
    (MigrateUp w dsn s).2.r = s.r := by
  unfold MigrateUp
  split
  · rfl
  · split
    · rfl
    · split
      · split <;> rfl
      · rfl

/-- C10. When the migration directory exists and the migrator instance is
made, `MigrateUp` returns nil if apply-all returns nil or the no-change error,
and returns any other error of apply-all unchanged; so a second call, made
when apply-all has nothing left to apply and reports no change, returns nil. -/
theorem MigrateUp_result (w : World) (dsn : String) (s : St)
    (hdir : w.statIsNotExist (w.filepathJoin s.r.RootPath "migrations") = false)
    (hnew : w.migrateNew
      ("file://" ++ w.filepathToSlash (w.filepathJoin s.r.RootPath "migrations")) dsn = none) :
    (w.migrateUp
        ("file://" ++ w.filepathToSlash (w.filepathJoin s.r.RootPath "migrations")) dsn = none →
      (MigrateUp w dsn s).1 = none)
    ∧ (w.migrateUp
        ("file://" ++ w.filepathToSlash (w.filepathJoin s.r.RootPath "migrations")) dsn
          = some GoError.ErrNoChange →
      (MigrateUp w dsn s).1 = none)
    ∧ (∀ e : GoError,
        w.migrateUp
          ("file://" ++ w.filepathToSlash (w.filepathJoin s.r.RootPath "migrations")) dsn
            = some e →
        e ≠ GoError.ErrNoChange → (MigrateUp w dsn s).1 = some e)
    ∧ (∀ w2 : World,
        w2.statIsNotExist (w2.filepathJoin s.r.RootPath "migrations") = false →
        w2.migrateNew
          ("file://" ++ w2.filepathToSlash (w2.filepathJoin s.r.RootPath "migrations")) dsn
            = none →
        w2.migrateUp
          ("file://" ++ w2.filepathToSlash (w2.filepathJoin s.r.RootPath "migrations")) dsn
            = some GoError.ErrNoChange →
        (MigrateUp w2 dsn (MigrateUp w dsn s).2).1 = none) := by
  refine ⟨?_, ?_, ?_, ?_⟩
  · intro h
    rw [MigrateUp_of_instance w dsn s hdir hnew, h]
  · intro h
    rw [MigrateUp_of_instance w dsn s hdir hnew, h]
    simp
  · intro e h he
    rw [MigrateUp_of_instance w dsn s hdir hnew, h]
    simp [he]
  · intro w2 hdir2 hnew2 hup2
    have hr := MigrateUp_receiver w dsn s
    rw [MigrateUp_of_instance w2 dsn _ (by rw [hr]; exact hdir2) (by rw [hr]; exact hnew2)]
    rw [hr, hup2]
    simp

/-- C10, witness: a first run that applies everything returns nil, the second
run on the migrated database returns nil, and a failing apply-all hands its
error back. -/
theorem MigrateUp_result_witness :
    (MigrateUp World.quiet "postgres://db" (St.fresh (envOf []))).1 = none
      ∧ (MigrateUp World.migrated "postgres://db"
          (MigrateUp World.quiet "postgres://db" (St.fresh (envOf []))).2).1 = none
      ∧ (MigrateUp World.dirty "postgres://db" (St.fresh (envOf []))).1
          = some (GoError.lib "Dirty database version 3") :=
  ⟨(MigrateUp_result World.quiet "postgres://db" (St.fresh (envOf [])) rfl rfl).1 rfl,
    (MigrateUp_result World.quiet "postgres://db" (St.fresh (envOf [])) rfl rfl).2.2.2
      World.migrated rfl rfl rfl,
    (MigrateUp_result World.dirty "postgres://db" (St.fresh (envOf [])) rfl rfl).2.2.1
      (GoError.lib "Dirty database version 3") rfl (by decide)⟩

/-! ### C3: closing the resources when the server stops -/

/-- With both loggers in place, `ListenAndServe` ends in `os.Exit(1)` and its
trace gains the call of the HTTP server only: no deferred close is run. -/
theorem ListenAndServe_of_loggers (w : World) (s : St) (i e : Logger)
    (hi : s.r.InfoLog = some i) (he : s.r.ErrorLog = some e) :
    ListenAndServe w s
      = Outcome.exited 1 (s.emit (Event.httpListenAndServe (":" ++ Getenv s.env "PORT"))) := by
  simp [ListenAndServe, hi, he, St.emit]

/-- When the deferred calls do run (here: the info logger is nil and `Println`
panics), the handles are closed in the order embedded store, redis pool,
relational pool, document client. -/
theorem ListenAndServe_panic_closes_in_order (w : World) (s : St) (b : BadgerDB)
    (p : RedisPool) (d : SqlDB) (c : MongoClient) (hi : s.r.InfoLog = none)
    (hb : s.g.badgerConn = some b) (hp : s.g.redisPool = some p) (hd : s.r.DB.Pool = some d)
    (hc : s.r.DB.Conn = some c) :
    ListenAndServe w s
      = Outcome.panicked
          { s with trace := s.trace ++ [Event.badgerClose b, Event.redisClose p,
              Event.sqlClose d, Event.mongoDisconnect c] } := by
  simp [ListenAndServe, hi, hb, hp, hd, hc, deferIf, runDeferred, St.emit, Deferred.event]

/-- C3, the code at the failing input. After `New` has opened the relational
pool, the redis pool and the embedded store, the HTTP server returns an error,
`Fatal` ends the process with status 1, and the trace ends with the call of
the server: none of the three handles is closed. -/
theorem ListenAndServe_fatal_closes_nothing :
    St.booted.r.DB.Pool = some { driverName := "pgx", dsn := "postgres://db" }
      ∧ St.booted.g.redisPool
          = some { MaxIdle := 50, MaxActive := 10000, IdleTimeout := 240 * Second }
      ∧ St.booted.g.badgerConn = some { dir := "/tmp/badger" }
      ∧ ∃ st, ListenAndServe World.quiet St.booted = Outcome.exited 1 st
          ∧ st.trace = St.booted.trace ++ [Event.httpListenAndServe ":8080"]
          ∧ st.trace.filter Event.isClose = [] := by
  refine ⟨by decide, by decide, by decide, _, rfl, rfl, ?_⟩
  decide

/-! ### C4: the directory of the embedded store -/

/-- C4, the code at the failing input. For the root `/app` and `CACHE=badger`
on a fresh receiver, `New` returns nil and opens the embedded store at
`/tmp/badger`; it never opens `/app/tmp/badger`, because `RootPath` is still
empty when the store is opened. -/
theorem New_badger_dir_ignores_root :
    (∃ st, New World.quiet "/app" (St.fresh (envOf [("CACHE", "badger")]))
        = Outcome.returned none st)
      ∧ Event.badgerOpen "/tmp/badger"
          ∈ (New World.quiet "/app" (St.fresh (envOf [("CACHE", "badger")]))).state.trace
      ∧ Event.badgerOpen ("/app" ++ "/tmp/badger")
          ∉ (New World.quiet "/app" (St.fresh (envOf [("CACHE", "badger")]))).state.trace := by
  refine ⟨⟨_, rfl⟩, by decide, by decide⟩

/-! ### C7: the error `Page` returns -/

/-- C7, the code at the failing input. With the engine `go`, a view that
parses and whose execution fails, `Page` returns nil. -/
theorem Page_go_drops_execute_error :
    World.brokenView.ParseFiles "/app/views/home.page.tmpl" = none
      ∧ World.brokenView.goExecute "/app/views/home.page.tmpl" TemplateData.zero
          = some (GoError.lib "template: executing: nil pointer evaluating")
      ∧ Page World.brokenView (Render.sample "go") (Request.sample []) "home" AnyVars.nil
          AnyData.nil
        = PageResult.returned none
            (some (Execution.goTemplate "/app/views/home.page.tmpl" TemplateData.zero))
            (some []) := by
  refine ⟨rfl, rfl, by decide⟩

/-! ### The stages of `New` -/

/-- A call of `New` that returns nil went through its four stages. -/
theorem New_returned_nil (w : World) (p : String) (s st : St)
    (h : New w p s = Outcome.returned none st) :
    ∃ s1 s2 s3, Init w { rootPath := p, folderNames := folderNames } s = (none, s1)
      ∧ New_database w (New_env w s1) = Outcome.returned () s2
      ∧ New_cache w s2 = (none, s3)
      ∧ New_configure w p s3 = some st := by
  unfold New at h
  split at h
  · simp at h
  · rename_i s1 hInit
    simp only at h
    split at h
    · simp at h
    · simp at h
    · rename_i u s2 hDb
      split at h
      · simp at h
      · rename_i s3 hCache
        split at h
        · simp at h
        · rename_i s4 hConf
          simp only [Outcome.returned.injEq, true_and] at h
          subst h
          exact ⟨s1, s2, s3, hInit, hDb, hCache, hConf⟩

/-- A pool returned without error by `OpenPostgresDB` is not nil. -/
theorem OpenPostgresDB_ok (w : World) (t dsn : String) (s s2 : St) (db : Option SqlDB)
    (h : OpenPostgresDB w t dsn s = ((db, none), s2)) :
    (∃ d, db = some d) ∧ s2.env = s.env := by
  unfold OpenPostgresDB at h
  simp only at h
  split at h
  · simp at h
  · split at h
    · simp at h
    · simp only [Prod.mk.injEq, and_true] at h
      obtain ⟨hdb, hs⟩ := h
      exact ⟨⟨_, hdb.symm⟩, by rw [← hs]; rfl⟩

/-- A client returned without error by `OpenMongoDB` is not nil. -/
theorem OpenMongoDB_ok (w : World) (uri : String) (s s2 : St) (c : Option MongoClient)
    (h : OpenMongoDB w uri s = ((c, none), s2)) :
    (∃ d, c = some d) ∧ s2.env = s.env := by
  unfold OpenMongoDB at h
  simp only at h
  split at h
  · simp at h
  · split at h
    · simp at h
    · simp only [Prod.mk.injEq, and_true] at h
      obtain ⟨hc, hs⟩ := h
      exact ⟨⟨_, hc.symm⟩, by rw [← hs]; rfl⟩

/-- What the database stage leaves in the receiver, by database type. -/
theorem New_database_returned (w : World) (s s2 : St)
    (h : New_database w s = Outcome.returned () s2) :
    s2.env = s.env
      ∧ (Getenv s.env "DATABASE_TYPE" = "postgres" ∨ Getenv s.env "DATABASE_TYPE" = "postgresql" →
          s2.r.DB.DataType = Getenv s.env "DATABASE_TYPE" ∧ (∃ d, s2.r.DB.Pool = some d)
            ∧ s2.r.DB.Conn = none)
      ∧ (Getenv s.env "DATABASE_TYPE" = "mongodb" →
          s2.r.DB.DataType = "mongodb" ∧ (∃ c, s2.r.DB.Conn = some c) ∧ s2.r.DB.Pool = none) := by
  unfold New_database at h
  split_ifs at h with h0 h1 h2
  · -- mongodb
    split at h
    · simp at h
    · rename_i c s3 hopen
      simp only [Outcome.returned.injEq, true_and] at h
      obtain ⟨hc, henv⟩ := OpenMongoDB_ok w _ s s3 c hopen
      subst h
      refine ⟨henv, ?_, ?_⟩
      · intro hp
        rw [h1] at hp
        rcases hp with hp | hp <;> exact absurd hp (by decide)
      · intro _
        exact ⟨by simp [henv, h1], hc, rfl⟩
  · -- postgres
    split at h
    · simp at h
    · rename_i db s3 hopen
      simp only [Outcome.returned.injEq, true_and] at h
      obtain ⟨hdb, henv⟩ := OpenPostgresDB_ok w _ _ s s3 db hopen
      subst h
      refine ⟨henv, ?_, ?_⟩
      · intro _
        exact ⟨by simp [henv], hdb, rfl⟩
      · intro hm
        exact absurd hm h1
  · simp only [Outcome.returned.injEq, true_and] at h
    subst h
    refine ⟨rfl, ?_, ?_⟩
    · intro hp
      rcases hp with hp | hp
      · exact absurd (Or.inr hp) h2
      · exact absurd (Or.inl hp) h2
    · intro hm
      exact absurd hm h1
  · simp only [Outcome.returned.injEq, true_and] at h
    subst h
    have h0' : Getenv s.env "DATABASE_TYPE" = "" := by simpa using h0
    refine ⟨rfl, ?_, ?_⟩
    · intro hp
      rw [h0'] at hp
      rcases hp with hp | hp <;> exact absurd hp (by decide)
    · intro hm
      rw [h0'] at hm
      exact absurd hm (by decide)

/-- The cache stage changes neither the database handle nor the environment. -/
theorem New_cache_frame (w : World) (s : St) :
    (New_cache w s).2.r.DB = s.r.DB ∧ (New_cache w s).2.env = s.env := by
  unfold New_cache
  simp only [createClientBadgerCache, createBadgerConn, St.emit]
  split_ifs <;> (try split) <;> (try split) <;> exact ⟨rfl, rfl⟩

/-- What the last stage of `New` leaves: the database handle, the environment
and the package variables are kept; the server descriptor and the cookie
sub-config come from the environment. -/
theorem New_configure_some (w : World) (p : String) (s st : St)
    (h : New_configure w p s = some st) :
    st.r.DB = s.r.DB ∧ st.env = s.env ∧ st.g = s.g ∧ st.trace = s.trace
      ∧ st.r.Server.Secure
          = (if ToLower w.unicodeLower (Getenv s.env "SECURE") = "false" then false else true)
      ∧ st.r.config.cookie.secure = Getenv s.env "COOKIE_SECURE"
      ∧ st.r.config.cookie.domain = Getenv s.env "COOKIE_DOMAIN" := by
  unfold New_configure at h
  simp only at h
  split at h
  · simp at h
  · split at h
    · simp at h
    · simp only [Option.some.injEq] at h
      subst h
      simp only [createRenderer]
      split_ifs <;> simp_all

/-! ### C2: the database handle -/

/-- C2, counterexample. With `DATABASE_TYPE=postgres` the call succeeds and
the pool is set, but the tag of the handle is `postgres`, not `relational`;
with `DATABASE_TYPE=mongo` the call succeeds and the handle stays zero: no tag
and no document client. -/
theorem New_database_tag_counterexample :
    (∃ st, New World.quiet "/app" (St.fresh (envOf [("DATABASE_TYPE", "postgres")]))
          = Outcome.returned none st
        ∧ st.r.DB.Pool.isSome = true ∧ st.r.DB.DataType = "postgres"
        ∧ st.r.DB.DataType ≠ "relational")
      ∧ (∃ st, New World.quiet "/app" (St.fresh (envOf [("DATABASE_TYPE", "mongo")]))
          = Outcome.returned none st
        ∧ st.r.DB.Conn = none ∧ st.r.DB.DataType = "" ∧ st.r.DB.DataType ≠ "document") := by
  refine ⟨⟨_, rfl, ?_, ?_, ?_⟩, ⟨_, rfl, ?_, ?_, ?_⟩⟩ <;> decide

/-- C2, amended. After `New` returns nil: when `DATABASE_TYPE` is `postgres` or
`postgresql`, the tag of the database handle is that same string, its
relational pool is not nil and its document client is nil; when
`DATABASE_TYPE` is `mongodb`, the tag is `mongodb`, the document client is not
nil and the relational pool is nil. The environment is the one `os.Getenv`
reads once `.env` has been loaded. -/
theorem New_database_handle (w : World) (p : String) (s st : St)
    (h : New w p s = Outcome.returned none st) :
    (Getenv st.env "DATABASE_TYPE" = "postgres" ∨ Getenv st.env "DATABASE_TYPE" = "postgresql" →
        st.r.DB.DataType = Getenv st.env "DATABASE_TYPE" ∧ st.r.DB.Pool.isSome = true
          ∧ st.r.DB.Conn = none)
      ∧ (Getenv st.env "DATABASE_TYPE" = "mongodb" →
        st.r.DB.DataType = "mongodb" ∧ st.r.DB.Conn.isSome = true ∧ st.r.DB.Pool = none) := by
  obtain ⟨s1, s2, s3, _, hDb, hCache, hConf⟩ := New_returned_nil w p s st h
  obtain ⟨hdb4, henv4, _⟩ := New_configure_some w p s3 st hConf
  have hfr := New_cache_frame w s2
  rw [hCache] at hfr
  obtain ⟨hdb3, henv3⟩ := hfr
  obtain ⟨henv2, hpg, hmg⟩ := New_database_returned w _ s2 hDb
  have henv : st.env = (New_env w s1).env := by rw [henv4, henv3, henv2]
  have hdb : st.r.DB = s2.r.DB := by rw [hdb4, hdb3]
  rw [henv, hdb]
  refine ⟨fun ht => ?_, fun ht => ?_⟩
  · obtain ⟨h1, ⟨d, h2⟩, h3⟩ := hpg ht
    exact ⟨h1, by simp [h2], h3⟩
  · obtain ⟨h1, ⟨c, h2⟩, h3⟩ := hmg ht
    exact ⟨h1, by simp [h2], h3⟩

/-- C2, witness: `postgresql` and `mongodb` in a world where the connections
open. -/
theorem New_database_handle_witness :
    ((bootState [("DATABASE_TYPE", "postgresql")]).r.DB.DataType
          = Getenv (bootState [("DATABASE_TYPE", "postgresql")]).env "DATABASE_TYPE"
        ∧ (bootState [("DATABASE_TYPE", "postgresql")]).r.DB.Pool.isSome = true
        ∧ (bootState [("DATABASE_TYPE", "postgresql")]).r.DB.Conn = none)
      ∧ ((bootState [("DATABASE_TYPE", "mongodb")]).r.DB.DataType = "mongodb"
        ∧ (bootState [("DATABASE_TYPE", "mongodb")]).r.DB.Conn.isSome = true
        ∧ (bootState [("DATABASE_TYPE", "mongodb")]).r.DB.Pool = none) :=
  ⟨(New_database_handle World.quiet "/app" (St.fresh (envOf [("DATABASE_TYPE", "postgresql")]))
      (bootState [("DATABASE_TYPE", "postgresql")]) rfl).1 (Or.inr rfl),
    (New_database_handle World.quiet "/app" (St.fresh (envOf [("DATABASE_TYPE", "mongodb")]))
      (bootState [("DATABASE_TYPE", "mongodb")]) rfl).2 rfl⟩

/-! ### C6: the two secure flags -/

/-- C6, counterexample. With `SECURE=false` and `COOKIE_SECURE=true` the call
succeeds, the server descriptor is not secure, and the base cookie of the CSRF
guard is secure. -/
theorem NoSurf_secure_counterexample :
    ∃ st, New World.quiet "/app"
          (St.fresh (envOf [("SECURE", "false"), ("COOKIE_SECURE", "true")]))
        = Outcome.returned none st
      ∧ Getenv st.env "SECURE" = "false"
      ∧ st.r.Server.Secure = false
      ∧ (NoSurf st.r).baseCookie.Secure = true := by
  refine ⟨_, rfl, ?_, ?_, ?_⟩ <;> decide

/-- C6, amended. After `New` returns nil in an environment where `SECURE` is
`false`, the server descriptor has `Secure = false`; the base cookie that
`NoSurf` sets has `Secure` equal to the value `strconv.ParseBool` gives for
`COOKIE_SECURE`: true when that is one of `1`, `t`, `T`, `TRUE`, `true`,
`True`, and false otherwise, whatever `SECURE` is. -/
theorem New_secure_false (w : World) (p : String) (s st : St)
    (h : New w p s = Outcome.returned none st)
    (hsec : Getenv st.env "SECURE" = "false") :
    st.r.Server.Secure = false
      ∧ (NoSurf st.r).baseCookie.Secure = (ParseBool (Getenv st.env "COOKIE_SECURE")).1
      ∧ ((NoSurf st.r).baseCookie.Secure = true ↔
          Getenv st.env "COOKIE_SECURE" ∈ ["1", "t", "T", "TRUE", "true", "True"]) := by
  obtain ⟨s1, s2, s3, _, _, _, hConf⟩ := New_returned_nil w p s st h
  obtain ⟨_, henv, _, _, hsrv, hck, _⟩ := New_configure_some w p s3 st hConf
  have hlow : ToLower w.unicodeLower "false" = "false" := rfl
  refine ⟨?_, ?_, ?_⟩
  · rw [hsrv, ← henv, hsec, hlow]; rfl
  · simp only [NoSurf, hck, henv]
  · simp only [NoSurf, hck, henv, ParseBool]
    split_ifs with h1 h2 <;> simp_all

/-- C6, witness: `SECURE=false` with `COOKIE_SECURE` unset, and with
`COOKIE_SECURE=true`. -/
theorem New_secure_false_witness :
    ((bootState [("SECURE", "false")]).r.Server.Secure = false
        ∧ (NoSurf (bootState [("SECURE", "false")]).r).baseCookie.Secure = false)
      ∧ ((bootState [("SECURE", "false"), ("COOKIE_SECURE", "true")]).r.Server.Secure = false
        ∧ (NoSurf (bootState [("SECURE", "false"), ("COOKIE_SECURE", "true")]).r).baseCookie.Secure
            = true) :=
  ⟨⟨(New_secure_false World.quiet "/app" (St.fresh (envOf [("SECURE", "false")]))
        (bootState [("SECURE", "false")]) rfl rfl).1,
      (New_secure_false World.quiet "/app" (St.fresh (envOf [("SECURE", "false")]))
        (bootState [("SECURE", "false")]) rfl rfl).2.1⟩,
    ⟨(New_secure_false World.quiet "/app"
        (St.fresh (envOf [("SECURE", "false"), ("COOKIE_SECURE", "true")]))
        (bootState [("SECURE", "false"), ("COOKIE_SECURE", "true")]) rfl rfl).1,
      (New_secure_false World.quiet "/app"
        (St.fresh (envOf [("SECURE", "false"), ("COOKIE_SECURE", "true")]))
        (bootState [("SECURE", "false"), ("COOKIE_SECURE", "true")]) rfl rfl).2.1⟩⟩

/-! ### C5: the is-authenticated flag of the rendered payload -/

/-- The flag `defaultData` leaves: it is raised when the session has `userID`
and is never lowered. -/
theorem defaultData_IsAuthenticated (c : Render) (td td2 : TemplateData) (r : Request)
    (d2 : SessionData) (h : defaultData c td r = some (td2, d2)) :
    ∃ d, r.session = some d
      ∧ td2.IsAuthenticated = (td.IsAuthenticated || SessionData.Exists d "userID") := by
  unfold defaultData at h
  simp only at h
  split at h
  · rename_i m d hm hd
    simp only [Option.some.injEq, Prod.mk.injEq] at h
    obtain ⟨htd, _⟩ := h
    refine ⟨d, hd, ?_⟩
    rw [← htd]
    cases hx : SessionData.Exists d "userID" <;> simp
  · simp at h

/-- The payload `GoPage` executes is the one of the caller. -/
theorem GoPage_executed (w : World) (rdr : Render) (r : Request) (view : String)
    (data : AnyData) (err : Option GoError) (x : Execution) (sess : Option SessionData)
    (h : GoPage w rdr r view data = PageResult.returned err (some x) sess) :
    x.data.IsAuthenticated = data.callerFlag := by
  unfold GoPage at h
  simp only at h
  split at h
  · simp at h
  · split at h
    · simp at h
    · simp only [PageResult.returned.injEq, Option.some.injEq] at h
      obtain ⟨_, hx, _⟩ := h
      rw [← hx]
      rfl
    · simp only [PageResult.returned.injEq, Option.some.injEq] at h
      obtain ⟨_, hx, _⟩ := h
      rw [← hx]
      rfl

/-- The payload `JetPage` executes went through `defaultData`. -/
theorem JetPage_executed (w : World) (rdr : Render) (r : Request) (name : String)
    (vars : AnyVars) (data : AnyData) (err : Option GoError) (x : Execution)
    (sess : Option SessionData)
    (h : JetPage w rdr r name vars data = PageResult.returned err (some x) sess) :
    ∃ d, r.session = some d
      ∧ x.data.IsAuthenticated = (data.callerFlag || SessionData.Exists d "userID") := by
  unfold JetPage at h
  simp only at h
  split at h
  · simp at h
  · split at h
    · simp at h
    · rename_i vs hvs template htemplate
      split at h
      · simp at h
      · rename_i td2 d2 hdef
        obtain ⟨d, hd, hflag⟩ := defaultData_IsAuthenticated rdr template td2 r d2 hdef
        have hcaller : template.IsAuthenticated = data.callerFlag := by
          cases data <;> simp at htemplate
          · rw [← htemplate]; rfl
          · rw [← htemplate]; rfl
        refine ⟨d, hd, ?_⟩
        rw [← hcaller, ← hflag]
        split at h
        · simp at h
        · split at h
          · simp at h
          · split at h
            · simp only [PageResult.returned.injEq, Option.some.injEq] at h
              obtain ⟨_, hx, _⟩ := h
              rw [← hx]
              rfl
            · simp only [PageResult.returned.injEq, Option.some.injEq] at h
              obtain ⟨_, hx, _⟩ := h
              rw [← hx]
              rfl

/-- C5, counterexample. With the engine `go`, a session that has `userID` and
no payload from the caller, the executed payload has the flag false; with the
engine `jet`, a session without `userID` and a payload whose flag is already
true, the executed payload has the flag true. -/
theorem Page_flag_counterexample :
    (SessionData.Exists [("userID", SessionValue.str "7")] "userID" = true
        ∧ Page World.quiet (Render.sample "go")
              (Request.sample [("userID", SessionValue.str "7")]) "home" AnyVars.nil AnyData.nil
            = PageResult.returned none
                (some (Execution.goTemplate "/app/views/home.page.tmpl" TemplateData.zero))
                (some [("userID", SessionValue.str "7")])
        ∧ TemplateData.zero.IsAuthenticated = false)
      ∧ (SessionData.Exists [] "userID" = false
        ∧ Page World.quiet (Render.sample "jet") (Request.sample []) "home" AnyVars.nil
              (AnyData.templateData { TemplateData.zero with IsAuthenticated := true })
            = PageResult.returned none
                (some (Execution.jetTemplate "home.jet" []
                  { TemplateData.zero with
                    IsAuthenticated := true, CSRFToken := "token", Port := "8080" }))
                (some [])) := by
  refine ⟨⟨?_, ?_, ?_⟩, ⟨?_, ?_⟩⟩ <;> decide

/-- C5, amended. Whenever `Page` executes a view: with the engine `jet` the
request carries session data and the executed payload has is-authenticated
equal to the flag of the caller's payload or-ed with "the session has
`userID`", so that for no payload, or a payload whose flag is false, it is
true exactly when the session has `userID`; with the engine `go` the executed
payload is the caller's and its flag is the caller's flag. -/
theorem Page_isAuthenticated (w : World) (rdr : Render) (r : Request) (view : String)
    (vars : AnyVars) (data : AnyData) (err : Option GoError) (x : Execution)
    (sess : Option SessionData)
    (h : Page w rdr r view vars data = PageResult.returned err (some x) sess) :
    (ToLower w.unicodeLower rdr.Renderer = "jet" →
        ∃ d, r.session = some d
          ∧ x.data.IsAuthenticated = (data.callerFlag || SessionData.Exists d "userID")
          ∧ (data.callerFlag = false →
              (x.data.IsAuthenticated = true ↔ SessionData.Exists d "userID" = true)))
      ∧ (ToLower w.unicodeLower rdr.Renderer = "go" →
        x.data.IsAuthenticated = data.callerFlag) := by
  unfold Page at h
  simp only at h
  refine ⟨fun hjet => ?_, fun hgo => ?_⟩
  · have hne : ToLower w.unicodeLower rdr.Renderer ≠ "go" := by rw [hjet]; decide
    rw [if_neg hne, if_pos hjet] at h
    obtain ⟨d, hd, hflag⟩ := JetPage_executed w rdr r view vars data err x sess h
    refine ⟨d, hd, hflag, fun hc => ?_⟩
    rw [hflag, hc]
    simp
  · rw [if_pos hgo] at h
    exact GoPage_executed w rdr r view data err x sess h

/-- C5, witness: the engine `jet` with no payload raises the flag for a session
that has `userID`; the engine `go` hands the caller's flag on. -/
theorem Page_isAuthenticated_witness :
    (Execution.jetTemplate "home.jet" []
        { TemplateData.zero with
          IsAuthenticated := true, CSRFToken := "token", Port := "8080" }).data.IsAuthenticated
        = true
      ∧ (Execution.goTemplate "/app/views/home.page.tmpl" TemplateData.zero).data.IsAuthenticated
        = AnyData.nil.callerFlag :=
  ⟨match (Page_isAuthenticated World.quiet (Render.sample "jet")
        (Request.sample [("userID", SessionValue.str "7")]) "home" AnyVars.nil AnyData.nil none
        (Execution.jetTemplate "home.jet" []
          { TemplateData.zero with
            IsAuthenticated := true, CSRFToken := "token", Port := "8080" })
        (some [("userID", SessionValue.str "7")]) (by decide)).1 (by decide) with
    | ⟨_, hd, _, hiff⟩ => (hiff rfl).2 (by cases hd; decide),
    (Page_isAuthenticated World.quiet (Render.sample "go")
        (Request.sample [("userID", SessionValue.str "7")]) "home" AnyVars.nil AnyData.nil none
        (Execution.goTemplate "/app/views/home.page.tmpl" TemplateData.zero)
        (some [("userID", SessionValue.str "7")]) (by decide)).2 (by decide)⟩

/-! ### More on the stages of `New` -/

/-- The loop of `Init` writes to the trace only. -/
theorem InitLoop_frame (w : World) (root : String) (fs : List String) (s : St) :
    (InitLoop w root fs s).2.r = s.r ∧ (InitLoop w root fs s).2.g = s.g
      ∧ (InitLoop w root fs s).2.env = s.env := by
  induction fs generalizing s with
  | nil => exact ⟨rfl, rfl, rfl⟩
  | cons f rest ih =>
    unfold InitLoop
    simp only
    split
    · exact ⟨rfl, rfl, rfl⟩
    · exact ih _

/-- Loading the environment file changes neither the receiver nor the package
variables. -/
theorem New_env_frame (w : World) (s : St) :
    (New_env w s).r = s.r ∧ (New_env w s).g = s.g := by
  unfold New_env godotenvLoad
  simp only
  split_ifs
  · split <;> exact ⟨rfl, rfl⟩
  · exact ⟨rfl, rfl⟩

/-- The database stage changes neither the config nor the package variables. -/
theorem New_database_frame (w : World) (s s2 : St)
    (h : New_database w s = Outcome.returned () s2) :
    s2.r.config = s.r.config ∧ s2.g = s.g := by
  unfold New_database at h
  split_ifs at h
  · simp only [OpenMongoDB, St.emit] at h
    split at h
    · simp at h
    · rename_i c s3 hopen
      simp only [Outcome.returned.injEq, true_and] at h
      subst h
      split at hopen
      · simp only [Prod.mk.injEq] at hopen
        obtain ⟨_, hs⟩ := hopen
        subst hs
        exact ⟨rfl, rfl⟩
      · split at hopen <;>
          (simp only [Prod.mk.injEq] at hopen
           obtain ⟨_, hs⟩ := hopen
           subst hs
           exact ⟨rfl, rfl⟩)
  · simp only [OpenPostgresDB, St.emit] at h
    split at h
    · simp at h
    · rename_i c s3 hopen
      simp only [Outcome.returned.injEq, true_and] at h
      subst h
      split at hopen
      · simp only [Prod.mk.injEq] at hopen
        obtain ⟨_, hs⟩ := hopen
        subst hs
        exact ⟨rfl, rfl⟩
      · split at hopen <;>
          (simp only [Prod.mk.injEq] at hopen
           obtain ⟨_, hs⟩ := hopen
           subst hs
           exact ⟨rfl, rfl⟩)
  · simp only [Outcome.returned.injEq, true_and] at h
    subst h
    exact ⟨rfl, rfl⟩
  · simp only [Outcome.returned.injEq, true_and] at h
    subst h
    exact ⟨rfl, rfl⟩

/-- The redis cache the cache stage builds: its prefix is the one the config of
the receiver holds when the stage starts. -/
theorem New_cache_redis (w : World) (s : St)
    (hredis : Getenv s.env "CACHE" = "redis" ∨ Getenv s.env "SESSION_TYPE" = "redis") :
    (New_cache w s).2.g.myRedisCache
        = some { Conn := some (createRedisPool s.r), Prefix := s.r.config.redis.keyPrefix }
      ∧ (Getenv s.env "CACHE" = "redis" →
          (New_cache w s).2.r.Cache
            = some (Cache.redis
                { Conn := some (createRedisPool s.r), Prefix := s.r.config.redis.keyPrefix })) := by
  unfold New_cache
  simp only [createClientBadgerCache, createBadgerConn, St.emit, createClientRedisCache,
    createRedisPool, if_pos hredis]
  refine ⟨?_, fun hc => ?_⟩
  · split_ifs <;> (try split) <;> (try split) <;> rfl
  · have hb : Getenv s.env "CACHE" ≠ "badger" := by rw [hc]; decide
    rw [if_neg hb]

/-- What the last stage of `New` leaves in the renderer, the redis sub-config,
the cache field and the server descriptor. -/
theorem New_configure_renderer (w : World) (p : String) (s st : St)
    (h : New_configure w p s = some st) :
    st.r.Render = some
        { Renderer := Getenv s.env "RENDERER", RootPath := p, Secure := false,
          Port := Getenv s.env "PORT", ServerName := "", JetViews := st.r.JetViews,
          Session := st.r.Session }
      ∧ st.r.JetViews.isSome = true ∧ st.r.Session.isSome = true
      ∧ st.r.config.redis.keyPrefix = Getenv s.env "REDIS_PREFIX"
      ∧ st.r.Cache = s.r.Cache
      ∧ st.r.Server.ServerName = Getenv s.env "SERVER_NAME" := by
  unfold New_configure at h
  simp only at h
  split at h
  · simp at h
  · split at h
    · simp at h
    · simp only [Option.some.injEq] at h
      subst h
      simp only [createRenderer]
      split_ifs <;> simp

/-- The secure flag and the server name `defaultData` writes are those of the
renderer. -/
theorem defaultData_Secure (c : Render) (td td2 : TemplateData) (r : Request)
    (d2 : SessionData) (h : defaultData c td r = some (td2, d2)) :
    td2.Secure = c.Secure ∧ td2.ServerName = c.ServerName := by
  unfold defaultData at h
  simp only at h
  split at h
  · simp only [Option.some.injEq, Prod.mk.injEq] at h
    obtain ⟨htd, _⟩ := h
    rw [← htd]
    split_ifs <;> exact ⟨rfl, rfl⟩
  · simp at h

/-- With a session manager in the renderer and session data in the request,
`defaultData` produces a payload. -/
theorem defaultData_total (c : Render) (td : TemplateData) (r : Request) (m : SessionManager)
    (d : SessionData) (hm : c.Session = some m) (hd : r.session = some d) :
    ∃ td2 d2, defaultData c td r = some (td2, d2) := by
  unfold defaultData
  simp only [hm, hd]
  exact ⟨_, _, rfl⟩

/-! ### C11: the key prefix of the redis cache -/

/-- C11. On a fresh receiver, when `CACHE` or `SESSION_TYPE` is `redis`, the
redis cache `New` builds has the empty key prefix whatever `REDIS_PREFIX` is:
the cache is built before the redis sub-config is read, and after `New` the
sub-config holds `REDIS_PREFIX` while the cache still has the empty prefix. -/
theorem New_redis_prefix_empty (w : World) (p : String) (s st : St) (hfresh : s.r = RKT.zero)
    (h : New w p s = Outcome.returned none st)
    (hredis : Getenv st.env "CACHE" = "redis" ∨ Getenv st.env "SESSION_TYPE" = "redis") :
    st.g.myRedisCache
        = some { Conn := some { MaxIdle := 50, MaxActive := 10000, IdleTimeout := 240 * Second },
                 Prefix := "" }
      ∧ (Getenv st.env "CACHE" = "redis" →
          st.r.Cache
            = some (Cache.redis
                { Conn := some { MaxIdle := 50, MaxActive := 10000,
                                 IdleTimeout := 240 * Second },
                  Prefix := "" }))
      ∧ st.r.config.redis.keyPrefix = Getenv st.env "REDIS_PREFIX" := by
  obtain ⟨s1, s2, s3, hInit, hDb, hCache, hConf⟩ := New_returned_nil w p s st h
  obtain ⟨_, henv4, hg4, _⟩ := New_configure_some w p s3 st hConf
  obtain ⟨_, _, _, hpre, hcache4, _⟩ := New_configure_renderer w p s3 st hConf
  obtain ⟨_, henv3⟩ := New_cache_frame w s2
  rw [hCache] at henv3
  have hr1 : s1.r = s.r := by
    have := (InitLoop_frame w p folderNames s).1
    unfold Init at hInit
    rw [hInit] at this
    exact this
  have hcfg2 : s2.r.config = RKT.zero.config := by
    rw [(New_database_frame w _ s2 hDb).1, (New_env_frame w s1).1, hr1, hfresh]
  have hredis2 : Getenv s2.env "CACHE" = "redis" ∨ Getenv s2.env "SESSION_TYPE" = "redis" := by
    rw [← henv3, ← henv4]; exact hredis
  obtain ⟨hmy, hc⟩ := New_cache_redis w s2 hredis2
  rw [hCache] at hmy hc
  simp only [hcfg2, createRedisPool] at hmy hc
  refine ⟨?_, ?_, ?_⟩
  · rw [hg4, hmy]; rfl
  · intro hcr
    rw [hcache4, hc (by rw [← henv3, ← henv4]; exact hcr)]; rfl
  · rw [hpre, henv4]

/-- C11, witness: `CACHE=redis` with `REDIS_PREFIX=myapp`. -/
theorem New_redis_prefix_empty_witness :
    (bootState [("CACHE", "redis"), ("REDIS_PREFIX", "myapp")]).g.myRedisCache
        = some { Conn := some { MaxIdle := 50, MaxActive := 10000, IdleTimeout := 240 * Second },
                 Prefix := "" }
      ∧ (bootState [("CACHE", "redis"), ("REDIS_PREFIX", "myapp")]).r.config.redis.keyPrefix
        = "myapp" :=
  ⟨(New_redis_prefix_empty World.quiet "/app"
      (St.fresh (envOf [("CACHE", "redis"), ("REDIS_PREFIX", "myapp")]))
      (bootState [("CACHE", "redis"), ("REDIS_PREFIX", "myapp")]) rfl rfl (Or.inl rfl)).1,
    (New_redis_prefix_empty World.quiet "/app"
      (St.fresh (envOf [("CACHE", "redis"), ("REDIS_PREFIX", "myapp")]))
      (bootState [("CACHE", "redis"), ("REDIS_PREFIX", "myapp")]) rfl rfl (Or.inl rfl)).2.2⟩

/-! ### C12: the renderer `New` builds -/

/-- C12. After `New` returns nil the renderer has `Secure = false` and an empty
`ServerName` whatever `SECURE` and `SERVER_NAME` are, while the server
descriptor takes its name from `SERVER_NAME` and is secure unless `SECURE`
lowers to `false`; only `Renderer`, `RootPath`, `Port`, `JetViews` and
`Session` of the renderer are filled in; and every payload `defaultData`
produces with that renderer, as it does for any request with session data,
carries `Secure = false` and an empty server name. -/
theorem New_renderer_flags (w : World) (p : String) (s st : St)
    (h : New w p s = Outcome.returned none st) :
    st.r.Render = some
        { Renderer := Getenv st.env "RENDERER", RootPath := p, Secure := false,
          Port := Getenv st.env "PORT", ServerName := "", JetViews := st.r.JetViews,
          Session := st.r.Session }
      ∧ st.r.JetViews.isSome = true ∧ st.r.Session.isSome = true
      ∧ st.r.Server.ServerName = Getenv st.env "SERVER_NAME"
      ∧ st.r.Server.Secure
          = (if ToLower w.unicodeLower (Getenv st.env "SECURE") = "false" then false else true)
      ∧ (∀ rdr : Render, st.r.Render = some rdr →
          ∀ (td : TemplateData) (req : Request),
            (∀ td2 d2, defaultData rdr td req = some (td2, d2) →
              td2.Secure = false ∧ td2.ServerName = "")
            ∧ (∀ d, req.session = some d →
              ∃ td2 d2, defaultData rdr td req = some (td2, d2)
                ∧ td2.Secure = false ∧ td2.ServerName = "")) := by
  obtain ⟨s1, s2, s3, _, _, _, hConf⟩ := New_returned_nil w p s st h
  obtain ⟨_, henv, _, _, hsrv, _⟩ := New_configure_some w p s3 st hConf
  obtain ⟨hrdr, hjet, hsess, _, _, hname⟩ := New_configure_renderer w p s3 st hConf
  rw [← henv] at hrdr hname hsrv
  refine ⟨hrdr, hjet, hsess, hname, hsrv, ?_⟩
  intro rdr hr td req
  rw [hrdr, Option.some.injEq] at hr
  have hflags : ∀ td2 d2, defaultData rdr td req = some (td2, d2) →
      td2.Secure = false ∧ td2.ServerName = "" := by
    intro td2 d2 hdef
    obtain ⟨h1, h2⟩ := defaultData_Secure rdr td td2 req d2 hdef
    rw [h1, h2, ← hr]
    exact ⟨rfl, rfl⟩
  refine ⟨hflags, fun d hd => ?_⟩
  obtain ⟨m, hm⟩ := Option.isSome_iff_exists.mp hsess
  have hm2 : rdr.Session = some m := by rw [← hr]; exact hm
  obtain ⟨td2, d2, hdef⟩ := defaultData_total rdr td req m d hm2 hd
  exact ⟨td2, d2, hdef, hflags td2 d2 hdef⟩

/-- C12, witness: with `SECURE=true` and `SERVER_NAME=example.com` the server
descriptor is secure and named, the renderer is neither. -/
theorem New_renderer_flags_witness :
    (bootState [("SECURE", "true"), ("SERVER_NAME", "example.com"), ("PORT", "8080"),
        ("RENDERER", "jet")]).r.Render
        = some
            { Renderer := "jet", RootPath := "/app", Secure := false, Port := "8080",
              ServerName := "",
              JetViews := some { viewsDir := "/app/views", developmentMode := false },
              Session := (bootState [("SECURE", "true"), ("SERVER_NAME", "example.com"),
                ("PORT", "8080"), ("RENDERER", "jet")]).r.Session }
      ∧ (bootState [("SECURE", "true"), ("SERVER_NAME", "example.com"), ("PORT", "8080"),
          ("RENDERER", "jet")]).r.Server.ServerName = "example.com"
      ∧ (bootState [("SECURE", "true"), ("SERVER_NAME", "example.com"), ("PORT", "8080"),
          ("RENDERER", "jet")]).r.Server.Secure = true :=
  ⟨(New_renderer_flags World.quiet "/app"
      (St.fresh (envOf [("SECURE", "true"), ("SERVER_NAME", "example.com"), ("PORT", "8080"),
        ("RENDERER", "jet")]))
      (bootState [("SECURE", "true"), ("SERVER_NAME", "example.com"), ("PORT", "8080"),
        ("RENDERER", "jet")]) rfl).1,
    (New_renderer_flags World.quiet "/app"
      (St.fresh (envOf [("SECURE", "true"), ("SERVER_NAME", "example.com"), ("PORT", "8080"),
        ("RENDERER", "jet")]))
      (bootState [("SECURE", "true"), ("SERVER_NAME", "example.com"), ("PORT", "8080"),
        ("RENDERER", "jet")]) rfl).2.2.2.1,
    (New_renderer_flags World.quiet "/app"
      (St.fresh (envOf [("SECURE", "true"), ("SERVER_NAME", "example.com"), ("PORT", "8080"),
        ("RENDERER", "jet")]))
      (bootState [("SECURE", "true"), ("SERVER_NAME", "example.com"), ("PORT", "8080"),
        ("RENDERER", "jet")]) rfl).2.2.2.2.1⟩

end Rkt
